import Mathlib

/-!
Verification of the image-automation core of `anyi_main.py` (class
`ImageAutomation`): the visual wait/locate engine `wait_and_find_image`,
the clicking wrapper `click_image_with_offset`, the text-entry helpers
`ensure_english_input` / `type_text_safely`, the random email generator
`generate_random_email`, and the fixed workflow
`perform_automation_sequence`.

The embedding is a state-passing translation of the Python source.  All
interaction with the outside world (the screen matcher
`pyautogui.locateCenterOnScreen`, mouse clicks, keyboard/clipboard calls,
and the random source) is captured by an environment `Env` of oracles
indexed by per-kind call counters; time is wall-clock milliseconds
advanced only by `time.sleep` calls.  A chronological trace of externally
visible events (newest first) records what the program did.
-/

namespace Anyi

/-- A screen search region `(left, top, width, height)`, as passed to
`pyautogui.locateCenterOnScreen(..., region=...)`. -/
abbrev Region := Int × Int × Int × Int

/-- Outcome of one call to `pyautogui.locateCenterOnScreen`: the template was
found at a center coordinate, it was not found (`None` returned), or the
call raised an exception. -/
inductive LocOutcome where
  | found (x y : Int)
  | notFound
  | error
  deriving DecidableEq, Repr

/-- `true` iff a locate outcome is a successful match. -/
def LocOutcome.isFound : LocOutcome → Bool
  | .found _ _ => true
  | _ => false

/-- Externally visible events of a run, newest first in the trace. -/
inductive Ev where
  /-- one `pyautogui.locateCenterOnScreen(path, region)` call and its outcome -/
  | locate (path : String) (region : Option Region) (out : LocOutcome)
  /-- one `pyautogui.click(x, y)` dispatch; `ok = false` means it raised -/
  | click (x y : Int) (ok : Bool)
  /-- one `time.sleep` of the given number of milliseconds -/
  | sleepEv (ms : Nat)
  /-- one `keyboard.press_and_release(name)`; `ok = false` means it raised -/
  | key (name : String) (ok : Bool)
  /-- one `pyperclip.copy(text)`; `ok = false` means it raised -/
  | copy (text : String) (ok : Bool)
  /-- one `pyautogui.hotkey('ctrl','v')` paste; `ok = false` means it raised -/
  | paste (ok : Bool)
  /-- one `pyautogui.write(text, interval)` (interval in ms); `ok = false` means it raised -/
  | write (text : String) (intervalMs : Nat) (ok : Bool)
  /-- one `generate_random_email` call producing the given address -/
  | genEmail (email : String)
  deriving DecidableEq, Repr

/-- Program state: wall-clock time in milliseconds, the per-kind call
counters indexing the oracles of `Env`, the system clipboard, and the
chronological event trace (newest event first). -/
structure S where
  time : Nat
  locN : Nat
  clkN : Nat
  rndN : Nat
  osN : Nat
  clipboard : Option String
  trace : List Ev
  deriving DecidableEq, Repr

/-- The initial state. -/
def sInit : S := ⟨0, 0, 0, 0, 0, none, []⟩

/-- The outside world: `fileExists` is `os.path.exists`; `locate` gives the
outcome of the `n`-th screen-match call when asked for a template path and
region; `clickOk` tells whether the `n`-th `pyautogui.click` dispatch
succeeds; `rand` is the stream of raw draws of the process random source;
`keyOk`/`copyOk`/`pasteOk`/`writeOk` tell whether the `n`-th
keyboard/clipboard/paste/typed-write call succeeds (indexed by the shared
OS-call counter `osN`). -/
structure Env where
  fileExists : String → Bool
  locate : String → Option Region → Nat → LocOutcome
  clickOk : Nat → Bool
  rand : Nat → Nat
  keyOk : Nat → Bool
  copyOk : Nat → Bool
  pasteOk : Nat → Bool
  writeOk : Nat → Bool

/-! ### Configuration constants of `ImageAutomation.__init__` -/

/-- `self.max_wait_time = 30` (seconds). -/
def maxWaitTime : Nat := 30

/-- `self.check_interval = 0.5` (seconds), in milliseconds. -/
def checkIntervalMs : Nat := 500

/-- `self.retry_count = 3`. -/
def retryCount : Nat := 3

/-- `self.images_dir = "images"`; `_get_image_path` joins it with the name. -/
def imagePath (name : String) : String := "images/" ++ name

/-! ### Primitive operations -/

/-- `time.sleep(ms / 1000)`: advances the clock, logs the sleep. -/
def sleep (ms : Nat) (s : S) : S :=
  { s with time := s.time + ms, trace := .sleepEv ms :: s.trace }

/-- One `pyautogui.locateCenterOnScreen(path, confidence, region)` call:
consumes the locate counter and logs the outcome. -/
def doLocate (env : Env) (path : String) (region : Option Region) (s : S) :
    LocOutcome × S :=
  let out := env.locate path region s.locN
  (out, { s with locN := s.locN + 1, trace := .locate path region out :: s.trace })

/-- One `pyautogui.click(x, y)` dispatch: consumes the click counter and
logs whether the dispatch succeeded (`false` = it raised). -/
def doClickAt (env : Env) (x y : Int) (s : S) : Bool × S :=
  let ok := env.clickOk s.clkN
  (ok, { s with clkN := s.clkN + 1, trace := .click x y ok :: s.trace })

/-- `random.randint(lo, hi)` (inclusive bounds): one draw from the random
stream mapped into `[lo, hi]`. -/
def randint (env : Env) (lo hi : Int) (s : S) : Int × S :=
  (lo + Int.ofNat (env.rand s.rndN % (hi - lo + 1).toNat),
   { s with rndN := s.rndN + 1 })

/-- `random.uniform(lo, hi)` used as a sleep duration, in milliseconds:
one draw mapped into `[lo, hi]`. -/
def randUniformMs (env : Env) (lo hi : Nat) (s : S) : Nat × S :=
  (lo + env.rand s.rndN % (hi - lo + 1), { s with rndN := s.rndN + 1 })

/-- `time.sleep(random.uniform(0.3, 0.6))`, the inter-step jitter of
`perform_automation_sequence`. -/
def randSleep (env : Env) (s : S) : S :=
  let p := randUniformMs env 300 600 s
  sleep p.1 p.2

/-! ### `wait_and_find_image` (lines 430-491 of the source) -/

/-- The inner `for retry in range(self.retry_count)` loop of
`wait_and_find_image`: before every retry after the first it sleeps 0.5 s,
then performs one screen match; a successful match returns the center at
once, `None` and raised exceptions both fall through to the next retry
(the source only logs them). `i` is the current value of `retry`,
`n` the number of retries left. -/
def retriesGo (env : Env) (path : String) (region : Option Region) :
    Nat → Nat → S → Option (Int × Int) × S
  | 0, _, s => (none, s)
  | n + 1, i, s =>
    let s1 := if 0 < i then sleep 500 s else s
    match doLocate env path region s1 with
    | (.found x y, s2) => (some (x, y), s2)
    | (_, s2) => retriesGo env path region n (i + 1) s2

/-- All `retry_count` match attempts of one poll cycle. -/
def primaryRetries (env : Env) (path : String) (region : Option Region) (s : S) :
    Option (Int × Int) × S :=
  retriesGo env path region retryCount 0 s

/-- The `if image_name != "7.png"` block of `wait_and_find_image`: one
single-shot full-screen match of the interrupt template `7.png`; on a
successful match the dismissal `handler` (the embedded
`click_image_with_offset("7.png")` call) runs; `None` results and raised
exceptions are silently ignored (`except Exception: pass`). -/
def interruptCheck (env : Env) (handler : S → S) (imageName : String) (s : S) : S :=
  if imageName = "7.png" then s
  else
    match doLocate env (imagePath "7.png") none s with
    | (.found _ _, s1) => handler s1
    | (_, s1) => s1

/-- One iteration of the `while time.time() - start_time < timeout` loop:
the primary retries, then (only when they all failed) the interrupt check
followed by the `time.sleep(self.check_interval)` poll delay. -/
def waitBody (env : Env) (handler : S → S) (imageName : String)
    (region : Option Region) (s : S) : Option (Int × Int) × S :=
  match primaryRetries env (imagePath imageName) region s with
  | (some loc, s1) => (some loc, s1)
  | (none, s1) => (none, sleep checkIntervalMs (interruptCheck env handler imageName s1))

/-- The polling loop of `wait_and_find_image`, with an explicit fuel bound
on the number of iterations.  Every iteration advances the clock by at
least `checkIntervalMs`, so fuel `timeoutMs + 1` is never exhausted; the
fuel-0 branch coincides with the deadline exit it would be. -/
def waitLoopF (env : Env) (handler : S → S) (imageName : String)
    (region : Option Region) (timeoutMs startTime : Nat) :
    Nat → S → Option (Int × Int) × S
  | 0, s => (none, s)
  | fuel + 1, s =>
    if s.time - startTime < timeoutMs then
      match waitBody env handler imageName region s with
      | (some loc, s1) => (some loc, s1)
      | (none, s1) => waitLoopF env handler imageName region timeoutMs startTime fuel s1
    else (none, s)

/-- `wait_and_find_image`, abstracted over the interrupt-dismissal handler:
resolves the template path, fails immediately (returning `None` with the
state untouched) when the template file is absent on disk, and otherwise
runs the polling loop with deadline `timeout` seconds (default
`max_wait_time`) from the current clock. -/
def waitAndFindImageH (env : Env) (handler : S → S) (imageName : String)
    (timeout : Option Nat) (region : Option Region) (s : S) :
    Option (Int × Int) × S :=
  let timeoutMs := 1000 * timeout.getD maxWaitTime
  if env.fileExists (imagePath imageName) then
    waitLoopF env handler imageName region timeoutMs s.time (timeoutMs + 1) s
  else (none, s)

/-! ### `click_image_with_offset` (lines 493-527) -/

/-- The body of the `if location:` branch: two `random.randint(-5, 5)`
draws and the `pyautogui.click(x + offset_x, y + offset_y)` dispatch. -/
def dispatchClickNear (env : Env) (x y : Int) (s : S) : Bool × S :=
  let p1 := randint env (-5) 5 s
  let p2 := randint env (-5) 5 p1.2
  doClickAt env (x + p1.1) (y + p2.1) p2.2

/-- The `for attempt in range(self.retry_count)` loop of
`click_image_with_offset`, abstracted over the locate routine: before
every attempt after the first it sleeps 1 s for the UI to stabilize; a
found location is clicked with a random offset; a raised click on the
last attempt returns `False`, on earlier attempts the loop retries. -/
def clickGo (env : Env) (waitFn : S → Option (Int × Int) × S) :
    Nat → Nat → S → Bool × S
  | 0, _, s => (false, s)
  | n + 1, i, s =>
    let s1 := if 0 < i then sleep 1000 s else s
    match waitFn s1 with
    | (some (x, y), s2) =>
      match dispatchClickNear env x y s2 with
      | (true, s3) => (true, s3)
      | (false, s3) =>
        if i = retryCount - 1 then (false, s3)
        else clickGo env waitFn n (i + 1) s3
    | (none, s2) => clickGo env waitFn n (i + 1) s2

/-- The `self.click_image_with_offset("7.png")` call made by the interrupt
check (default timeout and region), abstracted over the wait routine; its
boolean result is discarded by the caller. -/
def clickSevenWith (env : Env)
    (waitFn : String → Option Nat → Option Region → S → Option (Int × Int) × S)
    (s : S) : S :=
  (clickGo env (fun s => waitFn "7.png" none none s) retryCount 0 s).2

/-- `wait_and_find_image` with interrupt dismissals nested up to `d` deep.
At depth `d + 1` a detected interrupt is dismissed through
`click_image_with_offset("7.png")` running at depth `d`; at depth 0 a
detected interrupt is left undismissed.  The source's mutual recursion is
`waitDepth env 1`: the nested search is for `"7.png"` itself, whose own
interrupt check is disabled by the `image_name != "7.png"` guard, so no
deeper nesting is ever reachable (proved below). -/
def waitDepth (env : Env) :
    Nat → String → Option Nat → Option Region → S → Option (Int × Int) × S
  | 0 => fun img t r s => waitAndFindImageH env id img t r s
  | d + 1 => fun img t r s =>
      waitAndFindImageH env (fun s => clickSevenWith env (waitDepth env d) s) img t r s

/-- The interrupt-dismissal handler of the source:
`click_image_with_offset("7.png")` (whose inner search never performs an
interrupt check of its own). -/
def interruptHandler (env : Env) (s : S) : S :=
  clickSevenWith env (waitDepth env 0) s

/-- `wait_and_find_image` of the source: the depth-1 semantics. -/
def wait_and_find_image (env : Env) (imageName : String) (timeout : Option Nat)
    (region : Option Region) (s : S) : Option (Int × Int) × S :=
  waitAndFindImageH env (interruptHandler env) imageName timeout region s

/-- `click_image_with_offset` of the source. -/
def click_image_with_offset (env : Env) (imageName : String) (timeout : Option Nat)
    (region : Option Region) (s : S) : Bool × S :=
  clickGo env (fun s => wait_and_find_image env imageName timeout region s)
    retryCount 0 s

/-! ### Text entry and email generation (lines 529-580) -/

/-- One `keyboard.press_and_release(name)`: `.error` when it raised. -/
def keyPressE (env : Env) (name : String) (s : S) : Except S S :=
  let ok := env.keyOk s.osN
  let s1 := { s with osN := s.osN + 1, trace := .key name ok :: s.trace }
  if ok then .ok s1 else .error s1

/-- `ensure_english_input`: press Shift, sleep 0.2 s, press Shift again;
any raised exception is caught and only logged. -/
def ensure_english_input (env : Env) (s : S) : S :=
  match keyPressE env "shift" s with
  | .error s1 => s1
  | .ok s1 =>
    match keyPressE env "shift" (sleep 200 s1) with
    | .error s2 => s2
    | .ok s2 => s2

/-- One `pyperclip.copy(text)`: on success the clipboard now holds `text`;
`.error` when it raised (clipboard unchanged). -/
def copyE (env : Env) (text : String) (s : S) : Except S S :=
  let ok := env.copyOk s.osN
  if ok then
    .ok { s with osN := s.osN + 1, clipboard := some text,
                 trace := .copy text true :: s.trace }
  else
    .error { s with osN := s.osN + 1, trace := .copy text false :: s.trace }

/-- One `pyautogui.hotkey('ctrl', 'v')`: `.error` when it raised. -/
def pasteE (env : Env) (s : S) : Except S S :=
  let ok := env.pasteOk s.osN
  let s1 := { s with osN := s.osN + 1, trace := .paste ok :: s.trace }
  if ok then .ok s1 else .error s1

/-- One `pyautogui.write(text, interval=0.1)`: character-by-character key
injection with a 100 ms inter-character delay; `.error` when it raised. -/
def writeE (env : Env) (text : String) (s : S) : Except S S :=
  let ok := env.writeOk s.osN
  let s1 := { s with osN := s.osN + 1, trace := .write text 100 ok :: s.trace }
  if ok then .ok s1 else .error s1

/-- The `try` block of `type_text_safely`: force English input, copy the
text to the clipboard, sleep 0.2 s, inject the paste hotkey.  `.error`
carries the state at the point the block raised. -/
def clipboardPathE (env : Env) (text : String) (s : S) : Except S S :=
  match copyE env text (ensure_english_input env s) with
  | .error s1 => .error s1
  | .ok s1 => pasteE env (sleep 200 s1)

/-- `type_text_safely` with its exception structure made explicit: the
clipboard path, and on failure the `pyautogui.write` fallback whose own
failure is also caught and only logged.  The result is `.ok` precisely
when no exception escapes to the caller. -/
def type_text_safelyE (env : Env) (text : String) (s : S) : Except S S :=
  match clipboardPathE env text s with
  | .ok s1 => .ok s1
  | .error s1 =>
    match writeE env text s1 with
    | .ok s2 => .ok s2
    | .error s2 => .ok s2

/-- `type_text_safely` as the callers see it. -/
def type_text_safely (env : Env) (text : String) (s : S) : S :=
  match type_text_safelyE env text s with
  | .ok s1 => s1
  | .error s1 => s1

/-- `string.ascii_letters + string.digits`, the alphabet of
`generate_random_email`. -/
def emailChars : List Char :=
  "abcdefghijklmnopqrstuvwxyzABCDEFGHIJKLMNOPQRSTUVWXYZ0123456789".toList

/-- `random.choice(chars)`: one draw mapped to an index into the list. -/
def randChoice (env : Env) (cs : List Char) (s : S) : Char × S :=
  (cs.getD (env.rand s.rndN % cs.length) 'a', { s with rndN := s.rndN + 1 })

/-- The six sequential `random.choice(chars)` draws of the generator. -/
def genLocalPart (env : Env) : Nat → S → List Char × S
  | 0, s => ([], s)
  | n + 1, s =>
    let p := randChoice env emailChars s
    let q := genLocalPart env n p.2
    (p.1 :: q.1, q.2)

/-- `generate_random_email`: six random alphanumeric characters followed by
the fixed domain `@163.com`. -/
def generate_random_email (env : Env) (s : S) : String × S :=
  let p := genLocalPart env 6 s
  let email := String.mk p.1 ++ "@163.com"
  (email, { p.2 with trace := .genEmail email :: p.2.trace })

/-! ### `perform_automation_sequence` (lines 582-633) -/

/-- `perform_automation_sequence`: the fixed click/type script.  Every
click step that returns `False` aborts the whole sequence with `False`
at once; successful steps are followed by a random 0.3-0.6 s jitter
sleep. -/
def perform_automation_sequence (env : Env) (s : S) : Bool × S :=
  match click_image_with_offset env "1.png" none none s with
  | (false, s1) => (false, s1)
  | (true, s1) =>
  match click_image_with_offset env "2.png" none none (randSleep env s1) with
  | (false, s2) => (false, s2)
  | (true, s2) =>
  match click_image_with_offset env "3.png" none none (randSleep env s2) with
  | (false, s3) => (false, s3)
  | (true, s3) =>
  match generate_random_email env (randSleep env s3) with
  | (email, s4) =>
  match click_image_with_offset env "4.png" none none
      (randSleep env (type_text_safely env email s4)) with
  | (false, s5) => (false, s5)
  | (true, s5) =>
  match click_image_with_offset env "5.png" none none
      (randSleep env (type_text_safely env email (randSleep env s5))) with
  | (false, s6) => (false, s6)
  | (true, s6) =>
  match click_image_with_offset env "1.png" none none (randSleep env s6) with
  | (false, s7) => (false, s7)
  | (true, s7) =>
  match click_image_with_offset env "6.png" none none (randSleep env s7) with
  | (false, s8) => (false, s8)
  | (true, s8) => (true, randSleep env s8)

/-! ### Concrete environments used by witnesses and counterexamples -/

/-- All template files exist but no template ever matches on screen; every
input dispatch succeeds. -/
def cEnvNone : Env :=
  ⟨fun _ => true, fun _ _ _ => .notFound, fun _ => true, fun _ => 0,
   fun _ => true, fun _ => true, fun _ => true, fun _ => true⟩

/-- Every template matches immediately at (100, 100); every dispatch
succeeds; the random stream is constantly 0. -/
def cEnvFind : Env :=
  ⟨fun _ => true, fun _ _ _ => .found 100 100, fun _ => true, fun _ => 0,
   fun _ => true, fun _ => true, fun _ => true, fun _ => true⟩

/-- Like `cEnvFind` but with the random stream constantly 10 (so
`randint(-5, 5)` always yields +5). -/
def cEnvFindHi : Env :=
  ⟨fun _ => true, fun _ _ _ => .found 100 100, fun _ => true, fun _ => 10,
   fun _ => true, fun _ => true, fun _ => true, fun _ => true⟩

/-- No template file exists on disk. -/
def cEnvNoFiles : Env :=
  ⟨fun _ => false, fun _ _ _ => .notFound, fun _ => true, fun _ => 0,
   fun _ => true, fun _ => true, fun _ => true, fun _ => true⟩

/-- Templates 1 and 2 match immediately, template 3 (and the interrupt
template 7) never match; all files exist and all dispatches succeed. -/
def cEnvFail3 : Env :=
  ⟨fun _ => true,
   fun p _ _ => if p = imagePath "1.png" ∨ p = imagePath "2.png" then .found 100 100
                else .notFound,
   fun _ => true, fun _ => 0,
   fun _ => true, fun _ => true, fun _ => true, fun _ => true⟩

/-- States reached by the successful run of the sequence under `cEnvFind`,
used to phrase the closed witness of the sequencing theorems. -/
def wSt1 : S := (click_image_with_offset cEnvFind "1.png" none none sInit).2

/-- Second state of the `cEnvFind` run. -/
def wSt2 : S := (click_image_with_offset cEnvFind "2.png" none none (randSleep cEnvFind wSt1)).2

/-- Third state of the `cEnvFind` run. -/
def wSt3 : S := (click_image_with_offset cEnvFind "3.png" none none (randSleep cEnvFind wSt2)).2

/-- The email generated in the `cEnvFind` run. -/
def wEmail : String := (generate_random_email cEnvFind (randSleep cEnvFind wSt3)).1

/-- State after email generation in the `cEnvFind` run. -/
def wSt4 : S := (generate_random_email cEnvFind (randSleep cEnvFind wSt3)).2

/-- State after the fourth click of the `cEnvFind` run. -/
def wSt5 : S :=
  (click_image_with_offset cEnvFind "4.png" none none
    (randSleep cEnvFind (type_text_safely cEnvFind wEmail wSt4))).2

/-- State after the fifth click of the `cEnvFind` run. -/
def wSt6 : S :=
  (click_image_with_offset cEnvFind "5.png" none none
    (randSleep cEnvFind (type_text_safely cEnvFind wEmail (randSleep cEnvFind wSt5)))).2

/-- State after the repeated click on template 1 of the `cEnvFind` run. -/
def wSt7 : S := (click_image_with_offset cEnvFind "1.png" none none (randSleep cEnvFind wSt6)).2

/-- State after the final click of the `cEnvFind` run. -/
def wSt8 : S := (click_image_with_offset cEnvFind "6.png" none none (randSleep cEnvFind wSt7)).2

/-- States reached by the aborting run under `cEnvFail3`. -/
def fSt1 : S := (click_image_with_offset cEnvFail3 "1.png" none none sInit).2

/-- Second state of the `cEnvFail3` run. -/
def fSt2 : S := (click_image_with_offset cEnvFail3 "2.png" none none (randSleep cEnvFail3 fSt1)).2

/-- The state in which the failing click on template 3 leaves the
`cEnvFail3` run. -/
def fSt3 : S := (click_image_with_offset cEnvFail3 "3.png" none none (randSleep cEnvFail3 fSt2)).2

/-- The state after one failed primary-retry phase under `cEnvNone`,
used by the witness of the interrupt-scan theorem. -/
def pSt1 : S := (primaryRetries cEnvNone (imagePath "1.png") none sInit).2

/-! ### Event-class predicates used in the claim statements -/

/-- Events a `click_image_with_offset(img)` call may emit: screen matches
of `img` or of the interrupt template, click dispatches, and sleeps. -/
def clickEvOf (img : String) : Ev → Bool
  | .locate p _ _ => p = imagePath img || p = imagePath "7.png"
  | .click _ _ _ => true
  | .sleepEv _ => true
  | _ => false

/-- Events the first three click steps of the sequence may emit: no email
generation, no text entry, and no screen match of templates 4, 5 or 6. -/
def seqAbortEv : Ev → Bool
  | .locate p _ _ =>
      p = imagePath "1.png" || p = imagePath "2.png" || p = imagePath "3.png" ||
        p = imagePath "7.png"
  | .click _ _ _ => true
  | .sleepEv _ => true
  | _ => false

/-- `true` for every event except a successful click dispatch: used to
state that a run whose click wrapper reported failure never dispatched a
click that succeeded. -/
def noSuccessClickEv : Ev → Bool
  | .click _ _ ok => !ok
  | _ => true

/-- Events of the input-method toggling sequence: Shift key presses and
the settle sleep between them. -/
def shiftToggleEv : Ev → Bool
  | .key n _ => n = "shift"
  | .sleepEv _ => true
  | _ => false

/-- Events the primary-retry phase of a poll cycle may emit: screen
matches of the primary template only, and settle sleeps. -/
def primaryEvOf (q : String) : Ev → Bool
  | .locate pp _ _ => pp = q
  | .sleepEv _ => true
  | _ => false

/-- Number of screen-match calls for a given template path in a trace. -/
def countLoc (p : String) (tr : List Ev) : Nat :=
  tr.countP fun e => match e with
    | .locate q _ _ => q = p
    | _ => false

/-- `s'` extends the run of `s` by events all satisfying `P` (traces are
newest first, so the new events form a head segment). -/
def StepsTo (P : Ev → Bool) (s s' : S) : Prop :=
  ∃ ext, s'.trace = ext ++ s.trace ∧ ext.all P = true

/-! ### Basic facts about `StepsTo` -/

lemma stepsTo_refl (P : Ev → Bool) (s : S) : StepsTo P s s :=
  ⟨[], rfl, rfl⟩

lemma stepsTo_trans {P : Ev → Bool} {s s' s'' : S}
    (h1 : StepsTo P s s') (h2 : StepsTo P s' s'') : StepsTo P s s'' := by
  obtain ⟨e1, he1, ha1⟩ := h1
  obtain ⟨e2, he2, ha2⟩ := h2
  exact ⟨e2 ++ e1, by rw [he2, he1, List.append_assoc],
    by simp [List.all_append, ha1, ha2]⟩

lemma stepsTo_mono {P Q : Ev → Bool} (hPQ : ∀ e, P e = true → Q e = true)
    {s s' : S} (h : StepsTo P s s') : StepsTo Q s s' := by
  obtain ⟨ext, he, ha⟩ := h
  refine ⟨ext, he, ?_⟩
  rw [List.all_eq_true] at ha ⊢
  exact fun e hm => hPQ e (ha e hm)

lemma stepsTo_cons {P : Ev → Bool} {s s' : S} {e : Ev}
    (he : s'.trace = e :: s.trace) (hP : P e = true) : StepsTo P s s' :=
  ⟨[e], by simpa using he, by simp [hP]⟩

/-! ### `StepsTo` facts for the primitive operations -/

lemma stepsTo_sleep {P : Ev → Bool} (ms : Nat) (s : S)
    (h : P (.sleepEv ms) = true) : StepsTo P s (sleep ms s) :=
  stepsTo_cons rfl h

lemma stepsTo_doLocate {P : Ev → Bool} (env : Env) (p : String)
    (r : Option Region) (s : S)
    (h : ∀ out, P (.locate p r out) = true) :
    StepsTo P s (doLocate env p r s).2 :=
  stepsTo_cons rfl (h _)

lemma stepsTo_dispatchClickNear {P : Ev → Bool} (env : Env) (x y : Int) (s : S)
    (h : ∀ a b ok, P (.click a b ok) = true) :
    StepsTo P s (dispatchClickNear env x y s).2 :=
  stepsTo_cons rfl (h _ _ _)

lemma stepsTo_randSleep {P : Ev → Bool} (env : Env) (s : S)
    (h : ∀ ms, P (.sleepEv ms) = true) : StepsTo P s (randSleep env s) :=
  stepsTo_cons rfl (h _)

lemma stepsTo_retriesGo {P : Ev → Bool} (env : Env) (p : String)
    (r : Option Region)
    (hL : ∀ out, P (.locate p r out) = true)
    (hS : ∀ ms, P (.sleepEv ms) = true) :
    ∀ n i s, StepsTo P s (retriesGo env p r n i s).2 := by
  intro n
  induction n with
  | zero => intro i s; exact stepsTo_refl P s
  | succ n ih =>
    intro i s
    rw [retriesGo]
    have hstep : StepsTo P s (if 0 < i then sleep 500 s else s) := by
      by_cases hi : 0 < i
      · simpa [hi] using stepsTo_sleep 500 s (hS 500)
      · simpa [hi] using stepsTo_refl P s
    have hloc : StepsTo P s (doLocate env p r (if 0 < i then sleep 500 s else s)).2 :=
      stepsTo_trans hstep (stepsTo_doLocate env p r _ hL)
    rcases hout : doLocate env p r (if 0 < i then sleep 500 s else s) with ⟨out, s2⟩
    have hs2 : StepsTo P s s2 := by rw [hout] at hloc; exact hloc
    cases out with
    | found x y => simpa using hs2
    | notFound => simpa using stepsTo_trans hs2 (ih (i + 1) s2)
    | error => simpa using stepsTo_trans hs2 (ih (i + 1) s2)

lemma stepsTo_interruptCheck {P : Ev → Bool} (env : Env) (handler : S → S)
    (img : String) (s : S)
    (hL7 : ∀ out, P (.locate (imagePath "7.png") none out) = true)
    (hH : ∀ s', StepsTo P s' (handler s')) :
    StepsTo P s (interruptCheck env handler img s) := by
  rw [interruptCheck]
  by_cases h : img = "7.png"
  · simpa [h] using stepsTo_refl P s
  · simp only [h, if_false]
    have hloc : StepsTo P s (doLocate env (imagePath "7.png") none s).2 :=
      stepsTo_doLocate env _ none s hL7
    rcases hout : doLocate env (imagePath "7.png") none s with ⟨out, s1⟩
    have hs1 : StepsTo P s s1 := by rw [hout] at hloc; exact hloc
    cases out with
    | found x y => simpa using stepsTo_trans hs1 (hH s1)
    | notFound => simpa using hs1
    | error => simpa using hs1

lemma stepsTo_waitBody {P : Ev → Bool} (env : Env) (handler : S → S)
    (img : String) (r : Option Region) (s : S)
    (hL : ∀ out, P (.locate (imagePath img) r out) = true)
    (hL7 : ∀ out, P (.locate (imagePath "7.png") none out) = true)
    (hS : ∀ ms, P (.sleepEv ms) = true)
    (hH : ∀ s', StepsTo P s' (handler s')) :
    StepsTo P s (waitBody env handler img r s).2 := by
  rw [waitBody]
  have hret : StepsTo P s (primaryRetries env (imagePath img) r s).2 :=
    stepsTo_retriesGo env _ r hL hS _ _ s
  rcases hres : primaryRetries env (imagePath img) r s with ⟨res, s1⟩
  have hs1 : StepsTo P s s1 := by rw [hres] at hret; exact hret
  cases res with
  | some loc => simpa using hs1
  | none =>
    simp only
    exact stepsTo_trans hs1 (stepsTo_trans
      (stepsTo_interruptCheck env handler img s1 hL7 hH)
      (stepsTo_sleep _ _ (hS _)))

lemma stepsTo_waitLoopF {P : Ev → Bool} (env : Env) (handler : S → S)
    (img : String) (r : Option Region) (tms start : Nat)
    (hL : ∀ out, P (.locate (imagePath img) r out) = true)
    (hL7 : ∀ out, P (.locate (imagePath "7.png") none out) = true)
    (hS : ∀ ms, P (.sleepEv ms) = true)
    (hH : ∀ s', StepsTo P s' (handler s')) :
    ∀ fuel s, StepsTo P s (waitLoopF env handler img r tms start fuel s).2 := by
  intro fuel
  induction fuel with
  | zero => intro s; exact stepsTo_refl P s
  | succ fuel ih =>
    intro s
    rw [waitLoopF]
    by_cases hc : s.time - start < tms
    · simp only [hc, if_true]
      have hbody : StepsTo P s (waitBody env handler img r s).2 :=
        stepsTo_waitBody env handler img r s hL hL7 hS hH
      rcases hres : waitBody env handler img r s with ⟨res, s1⟩
      have hs1 : StepsTo P s s1 := by rw [hres] at hbody; exact hbody
      cases res with
      | some loc => simpa using hs1
      | none => simpa using stepsTo_trans hs1 (ih s1)
    · simpa [hc] using stepsTo_refl P s

lemma stepsTo_waitAndFindImageH {P : Ev → Bool} (env : Env) (handler : S → S)
    (img : String) (t : Option Nat) (r : Option Region) (s : S)
    (hL : ∀ out, P (.locate (imagePath img) r out) = true)
    (hL7 : ∀ out, P (.locate (imagePath "7.png") none out) = true)
    (hS : ∀ ms, P (.sleepEv ms) = true)
    (hH : ∀ s', StepsTo P s' (handler s')) :
    StepsTo P s (waitAndFindImageH env handler img t r s).2 := by
  rw [waitAndFindImageH]
  by_cases hf : env.fileExists (imagePath img)
  · simpa [hf] using stepsTo_waitLoopF env handler img r _ _ hL hL7 hS hH _ s
  · simpa [hf] using stepsTo_refl P s

lemma stepsTo_clickGo {P : Ev → Bool} (env : Env)
    (waitFn : S → Option (Int × Int) × S)
    (hW : ∀ s, StepsTo P s (waitFn s).2)
    (hC : ∀ a b ok, P (.click a b ok) = true)
    (hS : ∀ ms, P (.sleepEv ms) = true) :
    ∀ n i s, StepsTo P s (clickGo env waitFn n i s).2 := by
  intro n
  induction n with
  | zero => intro i s; exact stepsTo_refl P s
  | succ n ih =>
    intro i s
    rw [clickGo]
    have hstep : StepsTo P s (if 0 < i then sleep 1000 s else s) := by
      by_cases hi : 0 < i
      · simpa [hi] using stepsTo_sleep 1000 s (hS 1000)
      · simpa [hi] using stepsTo_refl P s
    set s1 := if 0 < i then sleep 1000 s else s with hs1def
    have hwait : StepsTo P s (waitFn s1).2 := stepsTo_trans hstep (hW s1)
    rcases hres : waitFn s1 with ⟨res, s2⟩
    have hs2 : StepsTo P s s2 := by rw [hres] at hwait; exact hwait
    cases res with
    | some loc =>
      rcases loc with ⟨x, y⟩
      have hdisp : StepsTo P s (dispatchClickNear env x y s2).2 :=
        stepsTo_trans hs2 (stepsTo_dispatchClickNear env x y s2 hC)
      rcases hd : dispatchClickNear env x y s2 with ⟨ok, s3⟩
      have hs3 : StepsTo P s s3 := by rw [hd] at hdisp; exact hdisp
      simp only [hd]
      cases ok with
      | true => simpa using hs3
      | false =>
        by_cases hi2 : i = retryCount - 1
        · simpa [hi2] using hs3
        · simpa [hi2] using stepsTo_trans hs3 (ih (i + 1) s3)
    | none => simpa using stepsTo_trans hs2 (ih (i + 1) s2)

lemma stepsTo_waitDepth {P : Ev → Bool} (env : Env)
    (hL7 : ∀ out, P (.locate (imagePath "7.png") none out) = true)
    (hC : ∀ a b ok, P (.click a b ok) = true)
    (hS : ∀ ms, P (.sleepEv ms) = true) :
    ∀ d img t r s, (∀ out, P (.locate (imagePath img) r out) = true) →
      StepsTo P s (waitDepth env d img t r s).2 := by
  intro d
  induction d with
  | zero =>
    intro img t r s hL
    rw [waitDepth]
    exact stepsTo_waitAndFindImageH env id img t r s hL hL7 hS
      (fun s' => stepsTo_refl P s')
  | succ d ih =>
    intro img t r s hL
    rw [waitDepth]
    refine stepsTo_waitAndFindImageH env _ img t r s hL hL7 hS ?_
    intro s'
    rw [clickSevenWith]
    exact stepsTo_clickGo env _ (fun s0 => ih "7.png" none none s0 hL7) hC hS _ _ s'

lemma stepsTo_wait {P : Ev → Bool} (env : Env) (img : String) (t : Option Nat)
    (r : Option Region) (s : S)
    (hL : ∀ out, P (.locate (imagePath img) r out) = true)
    (hL7 : ∀ out, P (.locate (imagePath "7.png") none out) = true)
    (hC : ∀ a b ok, P (.click a b ok) = true)
    (hS : ∀ ms, P (.sleepEv ms) = true) :
    StepsTo P s (wait_and_find_image env img t r s).2 := by
  have : wait_and_find_image env img t r s = waitDepth env 1 img t r s := rfl
  rw [this]
  exact stepsTo_waitDepth env hL7 hC hS 1 img t r s hL

lemma stepsTo_click {P : Ev → Bool} (env : Env) (img : String) (t : Option Nat)
    (r : Option Region) (s : S)
    (hL : ∀ out, P (.locate (imagePath img) r out) = true)
    (hL7 : ∀ out, P (.locate (imagePath "7.png") none out) = true)
    (hC : ∀ a b ok, P (.click a b ok) = true)
    (hS : ∀ ms, P (.sleepEv ms) = true) :
    StepsTo P s (click_image_with_offset env img t r s).2 := by
  rw [click_image_with_offset]
  exact stepsTo_clickGo env _ (fun s0 => stepsTo_wait env img t r s0 hL hL7 hC hS)
    hC hS _ _ s

/-! ### Congruence in the interrupt handler, and collapse of the nesting depth -/

lemma interruptCheck_congr {env : Env} {h1 h2 : S → S}
    (hh : ∀ s', h1 s' = h2 s') (img : String) (s : S) :
    interruptCheck env h1 img s = interruptCheck env h2 img s := by
  rw [interruptCheck, interruptCheck]
  by_cases h : img = "7.png"
  · simp [h]
  · simp only [h, if_false]
    rcases doLocate env (imagePath "7.png") none s with ⟨out, s1⟩
    cases out <;> simp [hh]

lemma interruptCheck_seven (env : Env) (h : S → S) (s : S) :
    interruptCheck env h "7.png" s = s := by
  simp [interruptCheck]

lemma waitBody_congr {env : Env} {h1 h2 : S → S}
    (hh : ∀ s', h1 s' = h2 s') (img : String) (r : Option Region) (s : S) :
    waitBody env h1 img r s = waitBody env h2 img r s := by
  rw [waitBody, waitBody]
  rcases primaryRetries env (imagePath img) r s with ⟨res, s1⟩
  cases res <;> simp [interruptCheck_congr hh]

lemma waitLoopF_congr {env : Env} {h1 h2 : S → S}
    (hh : ∀ s', h1 s' = h2 s') (img : String) (r : Option Region)
    (tms start : Nat) :
    ∀ fuel s, waitLoopF env h1 img r tms start fuel s
      = waitLoopF env h2 img r tms start fuel s := by
  intro fuel
  induction fuel with
  | zero => intro s; rfl
  | succ fuel ih =>
    intro s
    rw [waitLoopF, waitLoopF]
    by_cases hc : s.time - start < tms
    · simp only [hc, if_true]
      rw [waitBody_congr hh]
      rcases waitBody env h2 img r s with ⟨res, s1⟩
      cases res <;> simp [ih]
    · simp [hc]

lemma waitAndFindImageH_congr {env : Env} {h1 h2 : S → S}
    (hh : ∀ s', h1 s' = h2 s') (img : String) (t : Option Nat)
    (r : Option Region) (s : S) :
    waitAndFindImageH env h1 img t r s = waitAndFindImageH env h2 img t r s := by
  rw [waitAndFindImageH, waitAndFindImageH]
  by_cases hf : env.fileExists (imagePath img)
  · simp only [hf, if_true]
    exact waitLoopF_congr hh img r _ _ _ s
  · simp [hf]

lemma clickGo_congr {env : Env} {w1 w2 : S → Option (Int × Int) × S}
    (hw : ∀ s, w1 s = w2 s) :
    ∀ n i s, clickGo env w1 n i s = clickGo env w2 n i s := by
  intro n
  induction n with
  | zero => intro i s; rfl
  | succ n ih =>
    intro i s
    rw [clickGo, clickGo]
    rw [hw]
    rcases w2 (if 0 < i then sleep 1000 s else s) with ⟨res, s2⟩
    rcases res with _ | ⟨x, y⟩
    · simp only
      exact ih (i + 1) s2
    · simp only
      rcases dispatchClickNear env x y s2 with ⟨ok, s3⟩
      cases ok
      · simp only
        by_cases hi : i = retryCount - 1 <;> simp [hi, ih]
      · rfl

lemma waitBody_seven (env : Env) (h1 h2 : S → S) (r : Option Region) (s : S) :
    waitBody env h1 "7.png" r s = waitBody env h2 "7.png" r s := by
  rw [waitBody, waitBody]
  rcases primaryRetries env (imagePath "7.png") r s with ⟨res, s1⟩
  cases res <;> simp [interruptCheck_seven]

lemma waitLoopF_seven (env : Env) (h1 h2 : S → S) (r : Option Region)
    (tms start : Nat) :
    ∀ fuel s, waitLoopF env h1 "7.png" r tms start fuel s
      = waitLoopF env h2 "7.png" r tms start fuel s := by
  intro fuel
  induction fuel with
  | zero => intro s; rfl
  | succ fuel ih =>
    intro s
    rw [waitLoopF, waitLoopF]
    by_cases hc : s.time - start < tms
    · simp only [hc, if_true]
      rw [waitBody_seven env h1 h2]
      rcases waitBody env h2 "7.png" r s with ⟨res, s1⟩
      cases res <;> simp [ih]
    · simp [hc]

lemma waitH_seven_handler (env : Env) (h1 h2 : S → S) (t : Option Nat)
    (r : Option Region) (s : S) :
    waitAndFindImageH env h1 "7.png" t r s = waitAndFindImageH env h2 "7.png" t r s := by
  rw [waitAndFindImageH, waitAndFindImageH]
  by_cases hf : env.fileExists (imagePath "7.png")
  · simp only [hf, if_true]
    exact waitLoopF_seven env h1 h2 r _ _ _ s
  · simp [hf]

lemma waitDepth_seven (env : Env) (d : Nat) (t : Option Nat)
    (r : Option Region) (s : S) :
    waitDepth env d "7.png" t r s = waitDepth env 0 "7.png" t r s := by
  cases d with
  | zero => rfl
  | succ d =>
    rw [waitDepth, waitDepth]
    exact waitH_seven_handler env _ id t r s

lemma waitDepth_collapse (env : Env) (d : Nat) (img : String) (t : Option Nat)
    (r : Option Region) (s : S) :
    waitDepth env (d + 1) img t r s = waitDepth env 1 img t r s := by
  rw [waitDepth, waitDepth]
  refine waitAndFindImageH_congr ?_ img t r s
  intro s'
  rw [clickSevenWith, clickSevenWith]
  have hw : ∀ s0, waitDepth env d "7.png" none none s0
      = waitDepth env 0 "7.png" none none s0 :=
    fun s0 => waitDepth_seven env d none none s0
  rw [clickGo_congr hw]

/-! ### A successful search ends in a found-locate event at the head of the trace -/

lemma retriesGo_some (env : Env) (p : String) (r : Option Region) :
    ∀ n i s x y s', retriesGo env p r n i s = (some (x, y), s') →
      ∃ t', s'.trace = .locate p r (.found x y) :: t' := by
  intro n
  induction n with
  | zero => intro i s x y s' h; exact absurd h (by rw [retriesGo]; simp)
  | succ n ih =>
    intro i s x y s' h
    rw [retriesGo] at h
    set s1 := if 0 < i then sleep 500 s else s with hs1
    cases hE : env.locate p r s1.locN with
    | found a b =>
      simp only [doLocate, hE] at h
      rw [Prod.mk.injEq, Option.some.injEq, Prod.mk.injEq] at h
      obtain ⟨⟨ha, hb⟩, hs⟩ := h
      subst ha
      subst hb
      subst hs
      exact ⟨s1.trace, rfl⟩
    | notFound =>
      simp only [doLocate, hE] at h
      exact ih (i + 1) _ x y s' h
    | error =>
      simp only [doLocate, hE] at h
      exact ih (i + 1) _ x y s' h

lemma waitBody_some (env : Env) (h : S → S) (img : String) (r : Option Region)
    (s : S) (x y : Int) (s' : S)
    (hb : waitBody env h img r s = (some (x, y), s')) :
    ∃ t', s'.trace = .locate (imagePath img) r (.found x y) :: t' := by
  rw [waitBody] at hb
  rcases hres : primaryRetries env (imagePath img) r s with ⟨res, s1⟩
  rw [hres] at hb
  cases res with
  | some loc =>
    simp only at hb
    rw [primaryRetries] at hres
    exact retriesGo_some env _ r _ _ s x y s' (hres.trans hb)
  | none => simp at hb

lemma waitLoopF_some (env : Env) (h : S → S) (img : String) (r : Option Region)
    (tms start : Nat) :
    ∀ fuel s x y s', waitLoopF env h img r tms start fuel s = (some (x, y), s') →
      ∃ t', s'.trace = .locate (imagePath img) r (.found x y) :: t' := by
  intro fuel
  induction fuel with
  | zero =>
    intro s x y s' hl
    exact absurd hl (by rw [waitLoopF]; simp)
  | succ fuel ih =>
    intro s x y s' hl
    rw [waitLoopF] at hl
    by_cases hc : s.time - start < tms
    · simp only [hc, if_true] at hl
      rcases hres : waitBody env h img r s with ⟨res, s1⟩
      rw [hres] at hl
      cases res with
      | some loc =>
        simp only at hl
        exact waitBody_some env h img r s x y s' (hres.trans hl)
      | none =>
        simp only at hl
        exact ih s1 x y s' hl
    · simp [hc] at hl

lemma wait_some (env : Env) (img : String) (t : Option Nat) (r : Option Region)
    (s : S) (x y : Int) (s' : S)
    (hw : wait_and_find_image env img t r s = (some (x, y), s')) :
    ∃ t', s'.trace = .locate (imagePath img) r (.found x y) :: t' := by
  rw [wait_and_find_image, waitAndFindImageH] at hw
  by_cases hf : env.fileExists (imagePath img)
  · simp only [hf, if_true] at hw
    exact waitLoopF_some env _ img r _ _ _ s x y s' hw
  · simp [hf] at hw

/-! ### A `true` return of the click wrapper: successful dispatch within ±5 px
of a freshly found center -/

lemma dispatchClickNear_trace (env : Env) (x y : Int) (s : S) :
    ∃ ox oy, -5 ≤ ox ∧ ox ≤ 5 ∧ -5 ≤ oy ∧ oy ≤ 5 ∧
      (dispatchClickNear env x y s).2.trace
        = .click (x + ox) (y + oy) (dispatchClickNear env x y s).1 :: s.trace := by
  refine ⟨-5 + Int.ofNat (env.rand s.rndN % 11),
    -5 + Int.ofNat (env.rand (s.rndN + 1) % 11), ?_, ?_, ?_, ?_, ?_⟩
  · simp only [Int.ofNat_eq_natCast]
    omega
  · have h1 : env.rand s.rndN % 11 < 11 := Nat.mod_lt _ (by decide)
    simp only [Int.ofNat_eq_natCast]
    omega
  · simp only [Int.ofNat_eq_natCast]
    omega
  · have h1 : env.rand (s.rndN + 1) % 11 < 11 := Nat.mod_lt _ (by decide)
    simp only [Int.ofNat_eq_natCast]
    omega
  · simp only [dispatchClickNear, randint, doClickAt]
    norm_num

lemma clickGo_true (env : Env) (waitFn : S → Option (Int × Int) × S)
    (p : String) (r : Option Region)
    (hW : ∀ s0 x y s', waitFn s0 = (some (x, y), s') →
      ∃ t', s'.trace = .locate p r (.found x y) :: t') :
    ∀ n i s s', clickGo env waitFn n i s = (true, s') →
      ∃ x y ox oy t', s'.trace
          = .click (x + ox) (y + oy) true :: .locate p r (.found x y) :: t' ∧
        -5 ≤ ox ∧ ox ≤ 5 ∧ -5 ≤ oy ∧ oy ≤ 5 := by
  intro n
  induction n with
  | zero =>
    intro i s s' h
    exact absurd h (by rw [clickGo]; simp)
  | succ n ih =>
    intro i s s' h
    rw [clickGo] at h
    set s1 := if 0 < i then sleep 1000 s else s with hs1
    rcases hres : waitFn s1 with ⟨res, s2⟩
    rw [hres] at h
    rcases res with _ | ⟨x, y⟩
    · simp only at h
      exact ih (i + 1) s2 s' h
    · simp only at h
      obtain ⟨ox, oy, hox1, hox2, hoy1, hoy2, htr⟩ := dispatchClickNear_trace env x y s2
      rcases hd : dispatchClickNear env x y s2 with ⟨ok, s3⟩
      rw [hd] at h htr
      cases ok with
      | true =>
        simp only at h htr
        rw [Prod.mk.injEq] at h
        obtain ⟨-, h2⟩ := h
        subst h2
        obtain ⟨t', ht'⟩ := hW s1 x y s2 hres
        exact ⟨x, y, ox, oy, t', by rw [htr, ht'], hox1, hox2, hoy1, hoy2⟩
      | false =>
        simp only at h
        by_cases hi : i = retryCount - 1
        · simp [hi] at h
        · simp only [hi, if_false] at h
          exact ih (i + 1) _ s' h

/-! ### Exact timing of a poll cycle when nothing ever matches -/

lemma retriesGo_noFind (env : Env) (p : String) (r : Option Region)
    (h1 : ∀ r' n, (env.locate p r' n).isFound = false) :
    ∀ n i s, ∃ s', retriesGo env p r n i s = (none, s') ∧
      s'.time = s.time + (if 0 < i then 500 * n else 500 * (n - 1)) := by
  intro n
  induction n with
  | zero =>
    intro i s
    refine ⟨s, by rw [retriesGo], ?_⟩
    by_cases hi : 0 < i <;> simp [hi]
  | succ n ih =>
    intro i s
    rw [retriesGo]
    set s1 := if 0 < i then sleep 500 s else s with hs1
    have ht1 : s1.time = s.time + (if 0 < i then 500 else 0) := by
      by_cases hi : 0 < i <;> simp [hs1, hi, sleep]
    cases hE : env.locate p r s1.locN with
    | found a b =>
      have := h1 r s1.locN
      rw [hE] at this
      exact absurd this (by simp [LocOutcome.isFound])
    | notFound =>
      simp only [doLocate, hE]
      obtain ⟨s', hgo, htime⟩ := ih (i + 1)
        { s1 with locN := s1.locN + 1, trace := (.locate p r .notFound) :: s1.trace }
      refine ⟨s', hgo, ?_⟩
      have htime' : s'.time = s1.time + 500 * n := by simpa using htime
      by_cases hi : 0 < i <;> simp only [hi, if_true, if_false] at ht1 ⊢ <;> omega
    | error =>
      simp only [doLocate, hE]
      obtain ⟨s', hgo, htime⟩ := ih (i + 1)
        { s1 with locN := s1.locN + 1, trace := (.locate p r .error) :: s1.trace }
      refine ⟨s', hgo, ?_⟩
      have htime' : s'.time = s1.time + 500 * n := by simpa using htime
      by_cases hi : 0 < i <;> simp only [hi, if_true, if_false] at ht1 ⊢ <;> omega

lemma primaryRetries_noFind (env : Env) (p : String) (r : Option Region) (s : S)
    (h1 : ∀ r' n, (env.locate p r' n).isFound = false) :
    ∃ s', primaryRetries env p r s = (none, s') ∧ s'.time = s.time + 1000 := by
  obtain ⟨s', hgo, htime⟩ := retriesGo_noFind env p r h1 retryCount 0 s
  exact ⟨s', hgo, by simpa [retryCount] using htime⟩

lemma interruptCheck_noFind_time (env : Env) (h : S → S) (img : String) (s : S)
    (h7 : ∀ r' n, (env.locate (imagePath "7.png") r' n).isFound = false) :
    (interruptCheck env h img s).time = s.time := by
  rw [interruptCheck]
  by_cases hi : img = "7.png"
  · simp [hi]
  · simp only [hi, if_false]
    cases hE : env.locate (imagePath "7.png") none s.locN with
    | found a b =>
      have := h7 none s.locN
      rw [hE] at this
      exact absurd this (by simp [LocOutcome.isFound])
    | notFound => simp [doLocate, hE]
    | error => simp [doLocate, hE]

lemma waitBody_noFind (env : Env) (h : S → S) (img : String) (r : Option Region)
    (s : S)
    (h1 : ∀ r' n, (env.locate (imagePath img) r' n).isFound = false)
    (h7 : ∀ r' n, (env.locate (imagePath "7.png") r' n).isFound = false) :
    ∃ s', waitBody env h img r s = (none, s') ∧ s'.time = s.time + 1500 := by
  rw [waitBody]
  obtain ⟨sA, hgo, htA⟩ := primaryRetries_noFind env (imagePath img) r s h1
  rw [hgo]
  refine ⟨_, rfl, ?_⟩
  simp only [sleep, checkIntervalMs]
  rw [interruptCheck_noFind_time env h img sA h7, htA]

lemma waitLoopF_noFind (env : Env) (h : S → S) (img : String) (r : Option Region)
    (tms start : Nat)
    (h1 : ∀ r' n, (env.locate (imagePath img) r' n).isFound = false)
    (h7 : ∀ r' n, (env.locate (imagePath "7.png") r' n).isFound = false) :
    ∀ fuel s, start ≤ s.time → tms ≤ s.time - start + 500 * fuel →
      s.time - start < tms + 1500 →
      ∃ s', waitLoopF env h img r tms start fuel s = (none, s') ∧
        start + tms ≤ s'.time ∧ s'.time < start + tms + 1500 := by
  intro fuel
  induction fuel with
  | zero =>
    intro s hstart hfl hin
    exact ⟨s, by rw [waitLoopF], by omega, by omega⟩
  | succ fuel ih =>
    intro s hstart hfl hin
    rw [waitLoopF]
    by_cases hc : s.time - start < tms
    · simp only [hc, if_true]
      obtain ⟨s1, hbody, ht1⟩ := waitBody_noFind env h img r s h1 h7
      rw [hbody]
      simp only
      exact ih s1 (by omega) (by omega) (by omega)
    · simp only [hc, if_false]
      exact ⟨s, rfl, by omega, by omega⟩

/-! ### The missing-file gate, and `StepsTo` when the interrupt never fires -/

lemma wait_none_of_missing (env : Env) (img : String) (t : Option Nat)
    (r : Option Region) (s : S)
    (hf : env.fileExists (imagePath img) = false) :
    wait_and_find_image env img t r s = (none, s) := by
  rw [wait_and_find_image, waitAndFindImageH]
  simp [hf]

lemma stepsTo_interruptCheck_nf {P : Ev → Bool} (env : Env) (handler : S → S)
    (img : String) (s : S)
    (hL7 : ∀ out, P (.locate (imagePath "7.png") none out) = true)
    (h7 : ∀ r' n, (env.locate (imagePath "7.png") r' n).isFound = false) :
    StepsTo P s (interruptCheck env handler img s) := by
  rw [interruptCheck]
  by_cases h : img = "7.png"
  · simpa [h] using stepsTo_refl P s
  · simp only [h, if_false]
    cases hE : env.locate (imagePath "7.png") none s.locN with
    | found a b =>
      have := h7 none s.locN
      rw [hE] at this
      exact absurd this (by simp [LocOutcome.isFound])
    | notFound =>
      simp only [doLocate, hE]
      exact stepsTo_cons rfl (hL7 _)
    | error =>
      simp only [doLocate, hE]
      exact stepsTo_cons rfl (hL7 _)

lemma stepsTo_waitBody_nf {P : Ev → Bool} (env : Env) (handler : S → S)
    (img : String) (r : Option Region) (s : S)
    (hL : ∀ out, P (.locate (imagePath img) r out) = true)
    (hL7 : ∀ out, P (.locate (imagePath "7.png") none out) = true)
    (hS : ∀ ms, P (.sleepEv ms) = true)
    (h7 : ∀ r' n, (env.locate (imagePath "7.png") r' n).isFound = false) :
    StepsTo P s (waitBody env handler img r s).2 := by
  rw [waitBody]
  have hret : StepsTo P s (primaryRetries env (imagePath img) r s).2 :=
    stepsTo_retriesGo env _ r hL hS _ _ s
  rcases hres : primaryRetries env (imagePath img) r s with ⟨res, s1⟩
  have hs1 : StepsTo P s s1 := by rw [hres] at hret; exact hret
  cases res with
  | some loc => simpa using hs1
  | none =>
    simp only
    exact stepsTo_trans hs1 (stepsTo_trans
      (stepsTo_interruptCheck_nf env handler img s1 hL7 h7)
      (stepsTo_sleep _ _ (hS _)))

lemma stepsTo_waitLoopF_nf {P : Ev → Bool} (env : Env) (handler : S → S)
    (img : String) (r : Option Region) (tms start : Nat)
    (hL : ∀ out, P (.locate (imagePath img) r out) = true)
    (hL7 : ∀ out, P (.locate (imagePath "7.png") none out) = true)
    (hS : ∀ ms, P (.sleepEv ms) = true)
    (h7 : ∀ r' n, (env.locate (imagePath "7.png") r' n).isFound = false) :
    ∀ fuel s, StepsTo P s (waitLoopF env handler img r tms start fuel s).2 := by
  intro fuel
  induction fuel with
  | zero => intro s; exact stepsTo_refl P s
  | succ fuel ih =>
    intro s
    rw [waitLoopF]
    by_cases hc : s.time - start < tms
    · simp only [hc, if_true]
      have hbody : StepsTo P s (waitBody env handler img r s).2 :=
        stepsTo_waitBody_nf env handler img r s hL hL7 hS h7
      rcases hres : waitBody env handler img r s with ⟨res, s1⟩
      have hs1 : StepsTo P s s1 := by rw [hres] at hbody; exact hbody
      cases res with
      | some loc => simpa using hs1
      | none => simpa using stepsTo_trans hs1 (ih s1)
    · simpa [hc] using stepsTo_refl P s

lemma stepsTo_wait_nf {P : Ev → Bool} (env : Env) (img : String)
    (t : Option Nat) (r : Option Region) (s : S)
    (hL : ∀ out, P (.locate (imagePath img) r out) = true)
    (hL7 : ∀ out, P (.locate (imagePath "7.png") none out) = true)
    (hS : ∀ ms, P (.sleepEv ms) = true)
    (h7 : ∀ r' n, (env.locate (imagePath "7.png") r' n).isFound = false) :
    StepsTo P s (wait_and_find_image env img t r s).2 := by
  rw [wait_and_find_image, waitAndFindImageH]
  by_cases hf : env.fileExists (imagePath img)
  · simpa [hf] using
      stepsTo_waitLoopF_nf env (interruptHandler env) img r _ _ hL hL7 hS h7 _ s
  · simpa [hf] using stepsTo_refl P s

lemma clickGo_false_steps (env : Env) (waitFn : S → Option (Int × Int) × S)
    (hW : ∀ s0, StepsTo noSuccessClickEv s0 (waitFn s0).2) :
    ∀ n i s s', clickGo env waitFn n i s = (false, s') →
      StepsTo noSuccessClickEv s s' := by
  intro n
  induction n with
  | zero =>
    intro i s s' h
    rw [clickGo] at h
    rw [Prod.mk.injEq] at h
    rw [← h.2]
    exact stepsTo_refl _ s
  | succ n ih =>
    intro i s s' h
    rw [clickGo] at h
    set s1 := if 0 < i then sleep 1000 s else s with hs1
    have hstep : StepsTo noSuccessClickEv s s1 := by
      by_cases hi : 0 < i
      · simpa [hs1, hi] using stepsTo_sleep 1000 s rfl
      · simpa [hs1, hi] using stepsTo_refl _ s
    rcases hres : waitFn s1 with ⟨res, s2⟩
    rw [hres] at h
    have hs2 : StepsTo noSuccessClickEv s s2 := by
      have := hW s1
      rw [hres] at this
      exact stepsTo_trans hstep this
    rcases res with _ | ⟨x, y⟩
    · simp only at h
      exact stepsTo_trans hs2 (ih (i + 1) s2 s' h)
    · simp only at h
      obtain ⟨ox, oy, -, -, -, -, htr⟩ := dispatchClickNear_trace env x y s2
      rcases hd : dispatchClickNear env x y s2 with ⟨ok, s3⟩
      rw [hd] at h htr
      cases ok with
      | true => simp at h
      | false =>
        simp only at h htr
        have hs3 : StepsTo noSuccessClickEv s s3 :=
          stepsTo_trans hs2 (stepsTo_cons htr rfl)
        by_cases hi2 : i = retryCount - 1
        · simp only [hi2, if_true] at h
          rw [Prod.mk.injEq] at h
          rw [← h.2]
          exact hs3
        · simp only [hi2, if_false] at h
          exact stepsTo_trans hs3 (ih (i + 1) s3 s' h)

/-! ### Facts about the email generator -/

lemma emailChars_alnum : ∀ c ∈ emailChars, (c.isAlpha || c.isDigit) = true := by
  decide

lemma randChoice_emailChars_mem (env : Env) (s : S) :
    (randChoice env emailChars s).1 ∈ emailChars := by
  rw [randChoice]
  have hlen : emailChars.length = 62 := by decide
  have hlt : env.rand s.rndN % emailChars.length < emailChars.length := by
    rw [hlen]
    exact Nat.mod_lt _ (by decide)
  rw [List.getD_eq_getElem emailChars 'a' hlt]
  exact List.getElem_mem hlt

lemma genLocalPart_state (env : Env) :
    ∀ n s, (genLocalPart env n s).2 = { s with rndN := s.rndN + n } := by
  intro n
  induction n with
  | zero => intro s; simp [genLocalPart]
  | succ n ih =>
    intro s
    rw [genLocalPart]
    simp only [randChoice, ih]
    rw [S.mk.injEq]
    refine ⟨rfl, rfl, rfl, by omega, rfl, rfl, rfl⟩

lemma genLocalPart_length (env : Env) :
    ∀ n s, (genLocalPart env n s).1.length = n := by
  intro n
  induction n with
  | zero => intro s; rfl
  | succ n ih => intro s; simp [genLocalPart, ih]

lemma genLocalPart_mem (env : Env) :
    ∀ n s c, c ∈ (genLocalPart env n s).1 → c ∈ emailChars := by
  intro n
  induction n with
  | zero => intro s c hc; simp [genLocalPart] at hc
  | succ n ih =>
    intro s c hc
    rw [genLocalPart] at hc
    simp only [List.mem_cons] at hc
    rcases hc with hc | hc
    · rw [hc]
      exact randChoice_emailChars_mem env s
    · exact ih _ c hc

/-! ### Claim theorems -/

/-- Claim C5: when the template's resolved file path does not exist under
the templates directory, `wait_and_find_image` returns `None` immediately,
with the program state untouched: no screen poll happens and no time
elapses, exactly like a not-found result. -/
theorem wait_missing_file_none_immediate (env : Env) (img : String)
    (t : Option Nat) (r : Option Region) (s : S)
    (hf : env.fileExists (imagePath img) = false) :
    wait_and_find_image env img t r s = (none, s) := by
  rw [wait_and_find_image, waitAndFindImageH]
  simp [hf]

/-- Witness for C5 at a concrete environment with no template files. -/
theorem wait_missing_file_none_immediate_witness :
    cEnvNoFiles.fileExists (imagePath "2.png") = false ∧
    wait_and_find_image cEnvNoFiles "2.png" none none sInit = (none, sInit) :=
  ⟨rfl, wait_missing_file_none_immediate cEnvNoFiles "2.png" none none sInit rfl⟩

/-- Claim C6: `generate_random_email` always returns a 6-character
alphanumeric local part followed by the fixed domain `@163.com`
(matching `^[A-Za-z0-9]{6}@163\.com$`), and mutates nothing besides the
random-source position (it advances the random stream by exactly the six
draws; clock, counters and clipboard are unchanged). -/
theorem generate_random_email_spec (env : Env) (s : S) :
    ∃ lp : String,
      (generate_random_email env s).1 = lp ++ "@163.com" ∧
      lp.length = 6 ∧
      (∀ c ∈ lp.data, (c.isAlpha || c.isDigit) = true) ∧
      (generate_random_email env s).2.time = s.time ∧
      (generate_random_email env s).2.locN = s.locN ∧
      (generate_random_email env s).2.clkN = s.clkN ∧
      (generate_random_email env s).2.osN = s.osN ∧
      (generate_random_email env s).2.clipboard = s.clipboard ∧
      (generate_random_email env s).2.rndN = s.rndN + 6 := by
  refine ⟨String.mk (genLocalPart env 6 s).1, rfl, ?_, ?_, ?_, ?_, ?_, ?_, ?_, ?_⟩
  · exact genLocalPart_length env 6 s
  · intro c hc
    exact emailChars_alnum c (genLocalPart_mem env 6 s c hc)
  · rw [generate_random_email]
    simp [genLocalPart_state]
  · rw [generate_random_email]
    simp [genLocalPart_state]
  · rw [generate_random_email]
    simp [genLocalPart_state]
  · rw [generate_random_email]
    simp [genLocalPart_state]
  · rw [generate_random_email]
    simp [genLocalPart_state]
  · rw [generate_random_email]
    simp [genLocalPart_state]

/-- Claim C10: interrupt handling never nests.  Allowing any additional
nesting depth for interrupt dismissals yields exactly the depth-one
semantics `wait_and_find_image`: the dismissal's own search is for
`"7.png"`, whose interrupt scan is disabled by the name guard, so the
mutual recursion is bounded at depth one. -/
theorem interrupt_nesting_depth_one (env : Env) (d : Nat) (img : String)
    (t : Option Nat) (r : Option Region) (s : S) :
    waitDepth env (d + 1) img t r s = wait_and_find_image env img t r s :=
  waitDepth_collapse env d img t r s

/-- Claim C2 (amended): if the template file exists but neither the
template nor the interrupt template ever matches on screen, the wait
returns `None` after elapsing at least the timeout `t` and strictly less
than `t` plus one full poll cycle (two 0.5 s retry settle delays plus the
0.5 s check interval, i.e. 1.5 s). -/
theorem wait_timeout_window (env : Env) (img : String) (t : Nat)
    (r : Option Region) (s : S)
    (hf : env.fileExists (imagePath img) = true)
    (h1 : ∀ r' n, (env.locate (imagePath img) r' n).isFound = false)
    (h7 : ∀ r' n, (env.locate (imagePath "7.png") r' n).isFound = false) :
    ∃ s', wait_and_find_image env img (some t) r s = (none, s') ∧
      s.time + 1000 * t ≤ s'.time ∧ s'.time < s.time + 1000 * t + 1500 := by
  rw [wait_and_find_image, waitAndFindImageH]
  simp only [hf, if_true, Option.getD_some]
  obtain ⟨s', hrun, hlo, hhi⟩ :=
    waitLoopF_noFind env (interruptHandler env) img r (1000 * t) s.time h1 h7
      (1000 * t + 1) s le_rfl (by omega) (by omega)
  exact ⟨s', hrun, by omega, by omega⟩

/-- Counterexample to C2 as stated: with every template file present but
nothing ever matching, a wait with timeout 2 s returns only at 3000 ms
elapsed, which exceeds the claimed bound of the timeout plus one
`check_interval` (2500 ms): the poll cycle also contains the two 0.5 s
retry settle delays. -/
theorem wait_timeout_exceeds_check_interval_cex :
    (wait_and_find_image cEnvNone "1.png" (some 2) none sInit).1 = none ∧
    (wait_and_find_image cEnvNone "1.png" (some 2) none sInit).2.time = 3000 ∧
    ¬(3000 ≤ 1000 * 2 + 500) :=
  ⟨by decide, by decide, by decide⟩

/-- Claim C7: whenever `click_image_with_offset` reports success, the
dispatched click's coordinate differs from the located center by at most
5 pixels on each axis independently (the trace ends with the click at the
offset coordinate immediately after the found-locate of the center), and
both boundaries are attainable: a constant-0 random stream dispatches at
center − 5 on both axes and a constant-10 stream at center + 5. -/
theorem click_offset_within_five (env : Env) (img : String) (t : Option Nat)
    (r : Option Region) (s : S)
    (h : (click_image_with_offset env img t r s).1 = true) :
    (∃ x y ox oy t',
      (click_image_with_offset env img t r s).2.trace
        = .click (x + ox) (y + oy) true :: .locate (imagePath img) r (.found x y) :: t' ∧
      -5 ≤ ox ∧ ox ≤ 5 ∧ -5 ≤ oy ∧ oy ≤ 5) ∧
    (dispatchClickNear cEnvFind 100 100 sInit).2.trace = [.click 95 95 true] ∧
    (dispatchClickNear cEnvFindHi 100 100 sInit).2.trace = [.click 105 105 true] := by
  refine ⟨?_, by decide, by decide⟩
  rcases hE : click_image_with_offset env img t r s with ⟨b, s'⟩
  rw [hE] at h
  simp only at h
  subst h
  rw [click_image_with_offset] at hE
  obtain ⟨x, y, ox, oy, t', htr, hb⟩ :=
    clickGo_true env _ (imagePath img) r
      (fun s0 x y s'0 hw => wait_some env img t r s0 x y s'0 hw)
      retryCount 0 s s' hE
  exact ⟨x, y, ox, oy, t', htr, hb⟩

/-- Witness for C7: a concrete environment where the click succeeds. -/
theorem click_offset_within_five_witness :
    ((click_image_with_offset cEnvFind "1.png" none none sInit).1 = true) ∧
    ((∃ x y ox oy t',
      (click_image_with_offset cEnvFind "1.png" none none sInit).2.trace
        = .click (x + ox) (y + oy) true
            :: .locate (imagePath "1.png") none (.found x y) :: t' ∧
      -5 ≤ ox ∧ ox ≤ 5 ∧ -5 ≤ oy ∧ oy ≤ 5) ∧
    (dispatchClickNear cEnvFind 100 100 sInit).2.trace = [.click 95 95 true] ∧
    (dispatchClickNear cEnvFindHi 100 100 sInit).2.trace = [.click 105 105 true]) :=
  ⟨by decide, click_offset_within_five cEnvFind "1.png" none none sInit (by decide)⟩

/-- Claim C4: `click_image_with_offset` runs at most `retry_count = 3`
outer attempts with a 1 s stabilization sleep before each attempt after
the first; it returns `true` only when a locate succeeded and the
subsequent click dispatch succeeded (the trace ends with a successful
click right after the found-locate); a click-dispatch exception on the
final attempt is reported as the boolean `false` (never raised to the
caller): on the loop's last attempt, a successful locate followed by a
failing dispatch yields exactly `(false, dispatch state)`; when the
locate precondition fails on every attempt, the call is exactly the
three attempts and the two stabilization sleeps; and in any run during
which the interrupt template never matches, a `false` return means no
successful click was ever dispatched. -/
theorem click_retry_and_failure_policy (env : Env) (img : String)
    (t : Option Nat) (r : Option Region) (s : S) :
    ((click_image_with_offset env img t r s).1 = true →
      ∃ x y ox oy t', (click_image_with_offset env img t r s).2.trace
        = .click (x + ox) (y + oy) true
            :: .locate (imagePath img) r (.found x y) :: t') ∧
    (∀ (n : Nat) (sx s2 : S) (x y : Int),
      wait_and_find_image env img t r (sleep 1000 sx) = (some (x, y), s2) →
      env.clickOk s2.clkN = false →
      clickGo env (fun s0 => wait_and_find_image env img t r s0)
          (n + 1) (retryCount - 1) sx
        = (false, (dispatchClickNear env x y s2).2)) ∧
    (env.fileExists (imagePath img) = false →
      click_image_with_offset env img t r s
        = (false, { s with
                      time := s.time + 2000,
                      trace := (.sleepEv 1000) :: (.sleepEv 1000) :: s.trace })) ∧
    ((∀ r' n, (env.locate (imagePath "7.png") r' n).isFound = false) →
      (click_image_with_offset env img t r s).1 = false →
      ∃ ext, (click_image_with_offset env img t r s).2.trace = ext ++ s.trace ∧
        ext.all noSuccessClickEv = true) := by
  refine ⟨?_, ?_, ?_, ?_⟩
  · intro h
    rcases hE : click_image_with_offset env img t r s with ⟨b, s'⟩
    rw [hE] at h
    simp only at h
    subst h
    rw [click_image_with_offset] at hE
    obtain ⟨x, y, ox, oy, t', htr, -⟩ :=
      clickGo_true env _ (imagePath img) r
        (fun s0 x y s'0 hw => wait_some env img t r s0 x y s'0 hw)
        retryCount 0 s s' hE
    exact ⟨x, y, ox, oy, t', htr⟩
  · intro n sx s2 x y hw hck
    have hi : retryCount - 1 = 2 := rfl
    rw [hi, clickGo]
    rw [if_pos (by decide : (0:Nat) < 2)]
    simp only [hw]
    have hfst : (dispatchClickNear env x y s2).1 = env.clickOk s2.clkN := rfl
    rcases hd : dispatchClickNear env x y s2 with ⟨ok, s3⟩
    rw [hd] at hfst
    simp only at hfst
    rw [hck] at hfst
    subst hfst
    simp only [hd, hi]
    simp
  · intro hm
    have hw : ∀ s0, wait_and_find_image env img t r s0 = (none, s0) :=
      fun s0 => wait_none_of_missing env img t r s0 hm
    rw [click_image_with_offset]
    show clickGo env _ 3 0 s = _
    rw [clickGo]
    simp only [Nat.lt_irrefl, if_false, hw]
    rw [clickGo]
    simp only [Nat.zero_lt_one, if_true, hw]
    rw [clickGo]
    simp only [Nat.zero_lt_succ, if_true, hw]
    rw [clickGo]
    simp only [sleep]
  · intro h7 h
    rcases hE : click_image_with_offset env img t r s with ⟨b, s'⟩
    rw [hE] at h
    simp only at h
    subst h
    rw [click_image_with_offset] at hE
    have hsteps : StepsTo noSuccessClickEv s s' :=
      clickGo_false_steps env _
        (fun s0 => stepsTo_wait_nf env img t r s0
          (fun _ => rfl) (fun _ => rfl) (fun _ => rfl) h7)
        retryCount 0 s s' hE
    exact hsteps

/-- Witness for C4 at a concrete environment with no template files. -/
theorem click_retry_and_failure_policy_witness :
    (((click_image_with_offset cEnvNoFiles "3.png" none none sInit).1 = true →
      ∃ x y ox oy t',
        (click_image_with_offset cEnvNoFiles "3.png" none none sInit).2.trace
          = .click (x + ox) (y + oy) true
              :: .locate (imagePath "3.png") none (.found x y) :: t') ∧
    (∀ (n : Nat) (sx s2 : S) (x y : Int),
      wait_and_find_image cEnvNoFiles "3.png" none none (sleep 1000 sx)
        = (some (x, y), s2) →
      cEnvNoFiles.clickOk s2.clkN = false →
      clickGo cEnvNoFiles
          (fun s0 => wait_and_find_image cEnvNoFiles "3.png" none none s0)
          (n + 1) (retryCount - 1) sx
        = (false, (dispatchClickNear cEnvNoFiles x y s2).2)) ∧
    (cEnvNoFiles.fileExists (imagePath "3.png") = false →
      click_image_with_offset cEnvNoFiles "3.png" none none sInit
        = (false, { sInit with
                      time := sInit.time + 2000,
                      trace := (.sleepEv 1000) :: (.sleepEv 1000) :: sInit.trace })) ∧
    ((∀ r' n, (cEnvNoFiles.locate (imagePath "7.png") r' n).isFound = false) →
      (click_image_with_offset cEnvNoFiles "3.png" none none sInit).1 = false →
      ∃ ext, (click_image_with_offset cEnvNoFiles "3.png" none none sInit).2.trace
          = ext ++ sInit.trace ∧
        ext.all noSuccessClickEv = true)) :=
  click_retry_and_failure_policy cEnvNoFiles "3.png" none none sInit

/-- Witness for the amended C2 at a concrete never-matching environment. -/
theorem wait_timeout_window_witness :
    cEnvNone.fileExists (imagePath "1.png") = true ∧
    (∀ r' n, (cEnvNone.locate (imagePath "1.png") r' n).isFound = false) ∧
    (∀ r' n, (cEnvNone.locate (imagePath "7.png") r' n).isFound = false) ∧
    (∃ s', wait_and_find_image cEnvNone "1.png" (some 2) none sInit = (none, s') ∧
      sInit.time + 1000 * 2 ≤ s'.time ∧ s'.time < sInit.time + 1000 * 2 + 1500) :=
  ⟨rfl, fun _ _ => rfl, fun _ _ => rfl,
    wait_timeout_window cEnvNone "1.png" 2 none sInit rfl
      (fun _ _ => rfl) (fun _ _ => rfl)⟩

/-- Claim C8: `type_text_safely` first forces the input method to English
through a Shift-toggling key sequence (its events precede everything else
the call emits, beginning with a Shift press), then copies the text to
the clipboard and injects the paste hotkey; when the clipboard-paste path
raises (copy or paste), it falls back to one direct character-by-character
`write` injection with the fixed 100 ms inter-character delay; whenever
the copy succeeded, the system clipboard is left holding the typed text
(it is never restored). -/
theorem type_text_safely_policy (env : Env) (text : String) (s : S) :
    ∃ keyExt,
      (ensure_english_input env s).trace = keyExt ++ s.trace ∧
      keyExt.getLast? = some (.key "shift" (env.keyOk s.osN)) ∧
      keyExt.all shiftToggleEv = true ∧
      (let s0 := ensure_english_input env s
       (env.copyOk s0.osN = true → env.pasteOk (s0.osN + 1) = true →
         type_text_safely env text s
           = { s0 with
                 osN := s0.osN + 2,
                 time := s0.time + 200,
                 clipboard := some text,
                 trace := (.paste true) :: (.sleepEv 200)
                   :: (.copy text true) :: s0.trace }) ∧
       (env.copyOk s0.osN = false →
         type_text_safely env text s
           = { s0 with
                 osN := s0.osN + 2,
                 trace := (.write text 100 (env.writeOk (s0.osN + 1)))
                   :: (.copy text false) :: s0.trace }) ∧
       (env.copyOk s0.osN = true → env.pasteOk (s0.osN + 1) = false →
         type_text_safely env text s
           = { s0 with
                 osN := s0.osN + 3,
                 time := s0.time + 200,
                 clipboard := some text,
                 trace := (.write text 100 (env.writeOk (s0.osN + 2)))
                   :: (.paste false) :: (.sleepEv 200)
                   :: (.copy text true) :: s0.trace })) := by
  have hbranch :
      (env.keyOk s.osN = true →
        ensure_english_input env s
          = { s with
                osN := s.osN + 2,
                time := s.time + 200,
                trace := (.key "shift" (env.keyOk (s.osN + 1))) :: (.sleepEv 200)
                  :: (.key "shift" true) :: s.trace }) ∧
      (env.keyOk s.osN = false →
        ensure_english_input env s
          = { s with
                osN := s.osN + 1,
                trace := (.key "shift" false) :: s.trace }) := by
    constructor
    · intro hk
      rw [ensure_english_input, keyPressE]
      simp only [hk, if_true, sleep, keyPressE]
      rcases hk2 : env.keyOk (s.osN + 1) with _ | _ <;> simp [hk2]
    · intro hk
      rw [ensure_english_input, keyPressE]
      simp [hk]
  cases hk : env.keyOk s.osN with
  | true =>
    refine ⟨[.key "shift" (env.keyOk (s.osN + 1)), .sleepEv 200, .key "shift" true],
      by simp [hbranch.1 hk], by rfl, by simp [shiftToggleEv], ?_⟩
    rw [type_text_safely, type_text_safelyE, clipboardPathE, copyE]
    refine ⟨?_, ?_, ?_⟩
    · intro hc hp
      rw [hbranch.1 hk] at hc hp ⊢
      simp only at hc hp
      simp [hc, hp, sleep, pasteE, S.mk.injEq]
    · intro hc
      rw [hbranch.1 hk] at hc ⊢
      simp only at hc
      simp [hc, writeE, S.mk.injEq]
      rcases hw : env.writeOk (s.osN + 2 + 1) with _ | _ <;> simp [hw]
    · intro hc hp
      rw [hbranch.1 hk] at hc hp ⊢
      simp only at hc hp
      simp only [hc, if_true, sleep, pasteE]
      simp only [hp]
      simp only [writeE]
      rcases hw : env.writeOk (s.osN + 2 + 2) with _ | _ <;>
        simp [hw, S.mk.injEq]
  | false =>
    refine ⟨[.key "shift" false],
      by simp [hbranch.2 hk], by rfl, by simp [shiftToggleEv], ?_⟩
    rw [type_text_safely, type_text_safelyE, clipboardPathE, copyE]
    refine ⟨?_, ?_, ?_⟩
    · intro hc hp
      rw [hbranch.2 hk] at hc hp ⊢
      simp only at hc hp
      simp [hc, hp, sleep, pasteE, S.mk.injEq]
    · intro hc
      rw [hbranch.2 hk] at hc ⊢
      simp only at hc
      simp [hc, writeE, S.mk.injEq]
      rcases hw : env.writeOk (s.osN + 1 + 1) with _ | _ <;> simp [hw]
    · intro hc hp
      rw [hbranch.2 hk] at hc hp ⊢
      simp only at hc hp
      simp only [hc, if_true, sleep, pasteE]
      simp only [hp]
      simp only [writeE]
      rcases hw : env.writeOk (s.osN + 1 + 2) with _ | _ <;>
        simp [hw, S.mk.injEq]

/-- Witness for C8 at a concrete all-successful environment. -/
theorem type_text_safely_policy_witness :
    ∃ keyExt,
      (ensure_english_input cEnvFind sInit).trace = keyExt ++ sInit.trace ∧
      keyExt.getLast? = some (.key "shift" (cEnvFind.keyOk sInit.osN)) ∧
      keyExt.all shiftToggleEv = true ∧
      (let s0 := ensure_english_input cEnvFind sInit
       (cEnvFind.copyOk s0.osN = true → cEnvFind.pasteOk (s0.osN + 1) = true →
         type_text_safely cEnvFind "ab@163.com" sInit
           = { s0 with
                 osN := s0.osN + 2,
                 time := s0.time + 200,
                 clipboard := some "ab@163.com",
                 trace := (.paste true) :: (.sleepEv 200)
                   :: (.copy "ab@163.com" true) :: s0.trace }) ∧
       (cEnvFind.copyOk s0.osN = false →
         type_text_safely cEnvFind "ab@163.com" sInit
           = { s0 with
                 osN := s0.osN + 2,
                 trace := (.write "ab@163.com" 100 (cEnvFind.writeOk (s0.osN + 1)))
                   :: (.copy "ab@163.com" false) :: s0.trace }) ∧
       (cEnvFind.copyOk s0.osN = true → cEnvFind.pasteOk (s0.osN + 1) = false →
         type_text_safely cEnvFind "ab@163.com" sInit
           = { s0 with
                 osN := s0.osN + 3,
                 time := s0.time + 200,
                 clipboard := some "ab@163.com",
                 trace := (.write "ab@163.com" 100 (cEnvFind.writeOk (s0.osN + 2)))
                   :: (.paste false) :: (.sleepEv 200)
                   :: (.copy "ab@163.com" true) :: s0.trace })) :=
  type_text_safely_policy cEnvFind "ab@163.com" sInit

/-- Claim C9: `type_text_safely` never propagates an exception to its
caller (the explicit-exception embedding always returns normally), and
consequently the two email-typing steps of the sequence cannot cause a
`false` return: whenever the seven click steps succeed at the states
they are actually invoked in, `perform_automation_sequence` returns
`true`, irrespective of what the keyboard, clipboard, paste and write
oracles did inside the typing steps. -/
theorem typing_never_aborts :
    (∀ (env : Env) (text : String) (s : S),
      ∃ s', type_text_safelyE env text s = .ok s') ∧
    (∀ (env : Env) (s s1 s2 s3 : S) (email : String) (s4 s5 s6 s7 s8 : S),
      click_image_with_offset env "1.png" none none s = (true, s1) →
      click_image_with_offset env "2.png" none none (randSleep env s1) = (true, s2) →
      click_image_with_offset env "3.png" none none (randSleep env s2) = (true, s3) →
      generate_random_email env (randSleep env s3) = (email, s4) →
      click_image_with_offset env "4.png" none none
        (randSleep env (type_text_safely env email s4)) = (true, s5) →
      click_image_with_offset env "5.png" none none
        (randSleep env (type_text_safely env email (randSleep env s5))) = (true, s6) →
      click_image_with_offset env "1.png" none none (randSleep env s6) = (true, s7) →
      click_image_with_offset env "6.png" none none (randSleep env s7) = (true, s8) →
      perform_automation_sequence env s = (true, randSleep env s8)) := by
  constructor
  · intro env text s
    rw [type_text_safelyE]
    rcases hcp : clipboardPathE env text s with s1 | s1
    · rcases hwr : writeE env text s1 with s2 | s2
      · exact ⟨s2, by simp [hwr]⟩
      · exact ⟨s2, by simp [hwr]⟩
    · exact ⟨s1, by simp⟩
  · intro env s s1 s2 s3 email s4 s5 s6 s7 s8 h1 h2 h3 h4 h5 h6 h7 h8
    rw [perform_automation_sequence]
    simp only [h1, h2, h3, h4, h5, h6, h7, h8]

/-- Witness for C9 at a concrete environment where every template matches
at once, chaining the actual states of that run. -/
theorem typing_never_aborts_witness :
    (∃ s', type_text_safelyE cEnvFind "ab@163.com" sInit = .ok s') ∧
    (click_image_with_offset cEnvFind "1.png" none none sInit = (true, wSt1)) ∧
    (click_image_with_offset cEnvFind "2.png" none none
      (randSleep cEnvFind wSt1) = (true, wSt2)) ∧
    (click_image_with_offset cEnvFind "3.png" none none
      (randSleep cEnvFind wSt2) = (true, wSt3)) ∧
    (generate_random_email cEnvFind (randSleep cEnvFind wSt3) = (wEmail, wSt4)) ∧
    (click_image_with_offset cEnvFind "4.png" none none
      (randSleep cEnvFind (type_text_safely cEnvFind wEmail wSt4)) = (true, wSt5)) ∧
    (click_image_with_offset cEnvFind "5.png" none none
      (randSleep cEnvFind (type_text_safely cEnvFind wEmail
        (randSleep cEnvFind wSt5))) = (true, wSt6)) ∧
    (click_image_with_offset cEnvFind "1.png" none none
      (randSleep cEnvFind wSt6) = (true, wSt7)) ∧
    (click_image_with_offset cEnvFind "6.png" none none
      (randSleep cEnvFind wSt7) = (true, wSt8)) ∧
    perform_automation_sequence cEnvFind sInit = (true, randSleep cEnvFind wSt8) :=
  ⟨typing_never_aborts.1 cEnvFind "ab@163.com" sInit,
   by decide, by decide, by decide, by decide, by decide, by decide, by decide,
   by decide,
   typing_never_aborts.2 cEnvFind sInit wSt1 wSt2 wSt3 wEmail wSt4 wSt5 wSt6 wSt7 wSt8
     (by decide) (by decide) (by decide) (by decide) (by decide) (by decide)
     (by decide) (by decide)⟩

/-- Claim C1: whichever click step of `perform_automation_sequence` is the
first to return failure, the whole sequence returns `false` immediately in
exactly the state that failing click left, and no later step is attempted
— one conjunct per click step of the fixed script (templates 1, 2, 3,
then 4, 5, the repeated 1, and 6), each under the successes that actually
precede it.  In particular, when the click on template 3 fails, the run's
whole trace extension consists of screen matches of templates 1, 2, 3 and
the interrupt template, clicks and sleeps: no email is generated, no text
is typed, and templates 4, 5 and 6 are never even searched for. -/
theorem sequence_aborts_on_first_failed_click (env : Env) (s : S) :
    (∀ sf, click_image_with_offset env "1.png" none none s = (false, sf) →
      perform_automation_sequence env s = (false, sf)) ∧
    (∀ s1 sf,
      click_image_with_offset env "1.png" none none s = (true, s1) →
      click_image_with_offset env "2.png" none none (randSleep env s1)
        = (false, sf) →
      perform_automation_sequence env s = (false, sf)) ∧
    (∀ s1 s2 sf,
      click_image_with_offset env "1.png" none none s = (true, s1) →
      click_image_with_offset env "2.png" none none (randSleep env s1)
        = (true, s2) →
      click_image_with_offset env "3.png" none none (randSleep env s2)
        = (false, sf) →
      perform_automation_sequence env s = (false, sf) ∧
      ∃ ext, sf.trace = ext ++ s.trace ∧ ext.all seqAbortEv = true) ∧
    (∀ s1 s2 s3 email s4 sf,
      click_image_with_offset env "1.png" none none s = (true, s1) →
      click_image_with_offset env "2.png" none none (randSleep env s1)
        = (true, s2) →
      click_image_with_offset env "3.png" none none (randSleep env s2)
        = (true, s3) →
      generate_random_email env (randSleep env s3) = (email, s4) →
      click_image_with_offset env "4.png" none none
        (randSleep env (type_text_safely env email s4)) = (false, sf) →
      perform_automation_sequence env s = (false, sf)) ∧
    (∀ s1 s2 s3 email s4 s5 sf,
      click_image_with_offset env "1.png" none none s = (true, s1) →
      click_image_with_offset env "2.png" none none (randSleep env s1)
        = (true, s2) →
      click_image_with_offset env "3.png" none none (randSleep env s2)
        = (true, s3) →
      generate_random_email env (randSleep env s3) = (email, s4) →
      click_image_with_offset env "4.png" none none
        (randSleep env (type_text_safely env email s4)) = (true, s5) →
      click_image_with_offset env "5.png" none none
        (randSleep env (type_text_safely env email (randSleep env s5)))
        = (false, sf) →
      perform_automation_sequence env s = (false, sf)) ∧
    (∀ s1 s2 s3 email s4 s5 s6 sf,
      click_image_with_offset env "1.png" none none s = (true, s1) →
      click_image_with_offset env "2.png" none none (randSleep env s1)
        = (true, s2) →
      click_image_with_offset env "3.png" none none (randSleep env s2)
        = (true, s3) →
      generate_random_email env (randSleep env s3) = (email, s4) →
      click_image_with_offset env "4.png" none none
        (randSleep env (type_text_safely env email s4)) = (true, s5) →
      click_image_with_offset env "5.png" none none
        (randSleep env (type_text_safely env email (randSleep env s5)))
        = (true, s6) →
      click_image_with_offset env "1.png" none none (randSleep env s6)
        = (false, sf) →
      perform_automation_sequence env s = (false, sf)) ∧
    (∀ s1 s2 s3 email s4 s5 s6 s7 sf,
      click_image_with_offset env "1.png" none none s = (true, s1) →
      click_image_with_offset env "2.png" none none (randSleep env s1)
        = (true, s2) →
      click_image_with_offset env "3.png" none none (randSleep env s2)
        = (true, s3) →
      generate_random_email env (randSleep env s3) = (email, s4) →
      click_image_with_offset env "4.png" none none
        (randSleep env (type_text_safely env email s4)) = (true, s5) →
      click_image_with_offset env "5.png" none none
        (randSleep env (type_text_safely env email (randSleep env s5)))
        = (true, s6) →
      click_image_with_offset env "1.png" none none (randSleep env s6)
        = (true, s7) →
      click_image_with_offset env "6.png" none none (randSleep env s7)
        = (false, sf) →
      perform_automation_sequence env s = (false, sf)) := by
  refine ⟨?_, ?_, ?_, ?_, ?_, ?_, ?_⟩
  · intro sf h1
    rw [perform_automation_sequence]
    simp only [h1]
  · intro s1 sf h1 h2
    rw [perform_automation_sequence]
    simp only [h1, h2]
  · intro s1 s2 sf h1 h2 h3
    constructor
    · rw [perform_automation_sequence]
      simp only [h1, h2, h3]
    · have c1 : StepsTo seqAbortEv s s1 := by
        have h : StepsTo seqAbortEv s
            (click_image_with_offset env "1.png" none none s).2 :=
          stepsTo_click env "1.png" none none s (fun _ => rfl) (fun _ => rfl)
            (fun _ _ _ => rfl) (fun _ => rfl)
        rw [h1] at h
        exact h
      have c1s : StepsTo seqAbortEv s (randSleep env s1) :=
        stepsTo_trans c1 (stepsTo_randSleep env s1 (fun _ => rfl))
      have c2 : StepsTo seqAbortEv s s2 := by
        have h : StepsTo seqAbortEv (randSleep env s1)
            (click_image_with_offset env "2.png" none none (randSleep env s1)).2 :=
          stepsTo_click env "2.png" none none (randSleep env s1)
            (fun _ => rfl) (fun _ => rfl) (fun _ _ _ => rfl) (fun _ => rfl)
        rw [h2] at h
        exact stepsTo_trans c1s h
      have c2s : StepsTo seqAbortEv s (randSleep env s2) :=
        stepsTo_trans c2 (stepsTo_randSleep env s2 (fun _ => rfl))
      have c3 : StepsTo seqAbortEv s sf := by
        have h : StepsTo seqAbortEv (randSleep env s2)
            (click_image_with_offset env "3.png" none none (randSleep env s2)).2 :=
          stepsTo_click env "3.png" none none (randSleep env s2)
            (fun _ => rfl) (fun _ => rfl) (fun _ _ _ => rfl) (fun _ => rfl)
        rw [h3] at h
        exact stepsTo_trans c2s h
      exact c3
  · intro s1 s2 s3 email s4 sf h1 h2 h3 h4 h5
    rw [perform_automation_sequence]
    simp only [h1, h2, h3, h4, h5]
  · intro s1 s2 s3 email s4 s5 sf h1 h2 h3 h4 h5 h6
    rw [perform_automation_sequence]
    simp only [h1, h2, h3, h4, h5, h6]
  · intro s1 s2 s3 email s4 s5 s6 sf h1 h2 h3 h4 h5 h6 h7
    rw [perform_automation_sequence]
    simp only [h1, h2, h3, h4, h5, h6, h7]
  · intro s1 s2 s3 email s4 s5 s6 s7 sf h1 h2 h3 h4 h5 h6 h7 h8
    rw [perform_automation_sequence]
    simp only [h1, h2, h3, h4, h5, h6, h7, h8]

set_option maxRecDepth 100000 in
set_option maxHeartbeats 2000000 in
/-- Witness for C1: a concrete environment in which templates 1 and 2
match at once and template 3 never matches, exercising the template-3
conjunct at the actual states of that run. -/
theorem sequence_aborts_on_first_failed_click_witness :
    (click_image_with_offset cEnvFail3 "1.png" none none sInit = (true, fSt1)) ∧
    (click_image_with_offset cEnvFail3 "2.png" none none
      (randSleep cEnvFail3 fSt1) = (true, fSt2)) ∧
    (click_image_with_offset cEnvFail3 "3.png" none none
      (randSleep cEnvFail3 fSt2) = (false, fSt3)) ∧
    (perform_automation_sequence cEnvFail3 sInit = (false, fSt3) ∧
      ∃ ext, fSt3.trace = ext ++ sInit.trace ∧ ext.all seqAbortEv = true) :=
  ⟨by decide, by decide, by decide,
    (sequence_aborts_on_first_failed_click cEnvFail3 sInit).2.2.1 fSt1 fSt2 fSt3
      (by decide) (by decide) (by decide)⟩

/-! ### Support for the per-cycle interrupt-scan claim -/

lemma imagePath_ne {a b : String} (h : a ≠ b) : imagePath a ≠ imagePath b := by
  intro hc
  apply h
  have hd := congrArg String.data hc
  rw [imagePath, imagePath, String.data_append, String.data_append] at hd
  exact String.ext (List.append_cancel_left hd)

lemma countLoc_append (p : String) (ext tr : List Ev) :
    countLoc p (ext ++ tr) = countLoc p ext + countLoc p tr := by
  rw [countLoc, countLoc, countLoc, List.countP_append]

lemma countLoc_le_of_stepsTo (p : String) {s s' : S}
    (h : StepsTo (fun _ => true) s s') :
    countLoc p s.trace ≤ countLoc p s'.trace := by
  obtain ⟨ext, he, -⟩ := h
  rw [he, countLoc_append]
  omega

lemma countLoc_cons_self (p : String) (r : Option Region) (out : LocOutcome)
    (tr : List Ev) :
    countLoc p (Ev.locate p r out :: tr) = countLoc p tr + 1 := by
  rw [countLoc, countLoc, List.countP_cons]
  simp

lemma countLoc_zero_of_primaryEv (q p : String) (hqp : q ≠ p) :
    ∀ ext : List Ev, ext.all (primaryEvOf q) = true → countLoc p ext = 0 := by
  intro ext
  induction ext with
  | nil => intro _; rfl
  | cons e tl ih =>
    intro h
    rw [List.all_cons, Bool.and_eq_true] at h
    rw [countLoc, List.countP_cons]
    have htl : countLoc p tl = 0 := ih h.2
    rw [countLoc] at htl
    rw [htl]
    cases e with
    | locate pp rr oo =>
      have : pp = q := by simpa [primaryEvOf] using h.1
      subst this
      simp [hqp]
    | click a b ok => simp [primaryEvOf] at h ⊢
    | sleepEv ms => simp
    | key n ok => simp [primaryEvOf] at h
    | copy t ok => simp [primaryEvOf] at h
    | paste ok => simp [primaryEvOf] at h
    | write t i ok => simp [primaryEvOf] at h
    | genEmail em => simp [primaryEvOf] at h

lemma stepsTo_true_interruptHandler (env : Env) (s' : S) :
    StepsTo (fun _ => true) s' (interruptHandler env s') := by
  rw [interruptHandler, clickSevenWith]
  refine stepsTo_clickGo env _ ?_ (fun _ _ _ => rfl) (fun _ => rfl) _ _ s'
  intro s0
  rw [waitDepth]
  exact stepsTo_waitAndFindImageH env id "7.png" none none s0
    (fun _ => rfl) (fun _ => rfl) (fun _ => rfl) (fun s1 => stepsTo_refl _ s1)

lemma waitLoopF_polls_again (env : Env) (img : String) (r : Option Region)
    (tms start fuel : Nat) (sx : S) (hc : sx.time - start < tms) :
    countLoc (imagePath img)
        ((waitLoopF env (interruptHandler env) img r tms start (fuel + 1) sx).2.trace)
      > countLoc (imagePath img) sx.trace := by
  rw [waitLoopF]
  simp only [hc, if_true]
  rw [waitBody, primaryRetries]
  simp only [retryCount]
  rw [retriesGo]
  simp only [Nat.lt_irrefl, if_false]
  cases hE : env.locate (imagePath img) r sx.locN with
  | found a b =>
    simp only [doLocate, hE]
    rw [countLoc_cons_self]
    omega
  | notFound =>
    simp only [doLocate, hE]
    set s2 : S := { sx with
                      locN := sx.locN + 1,
                      trace := (.locate (imagePath img) r .notFound) :: sx.trace }
      with hs2
    have hcount : countLoc (imagePath img) s2.trace
        = countLoc (imagePath img) sx.trace + 1 := by
      rw [hs2]
      exact countLoc_cons_self _ r _ _
    have hrest : StepsTo (fun _ => true) s2
        (retriesGo env (imagePath img) r 2 1 s2).2 :=
      stepsTo_retriesGo env _ r (fun _ => rfl) (fun _ => rfl) 2 1 s2
    rcases hgo : retriesGo env (imagePath img) r 2 1 s2 with ⟨res, s3⟩
    rw [hgo] at hrest
    have h23 : countLoc (imagePath img) s2.trace ≤ countLoc (imagePath img) s3.trace :=
      countLoc_le_of_stepsTo _ hrest
    cases res with
    | some loc =>
      simp only
      omega
    | none =>
      simp only
      have hic : StepsTo (fun _ => true) s3
          (sleep checkIntervalMs (interruptCheck env (interruptHandler env) img s3)) :=
        stepsTo_trans
          (stepsTo_interruptCheck env (interruptHandler env) img s3
            (fun _ => rfl) (stepsTo_true_interruptHandler env))
          (stepsTo_sleep _ _ rfl)
      set s4 := sleep checkIntervalMs (interruptCheck env (interruptHandler env) img s3)
      have hloop : StepsTo (fun _ => true) s4
          (waitLoopF env (interruptHandler env) img r tms start fuel s4).2 :=
        stepsTo_waitLoopF env (interruptHandler env) img r tms start
          (fun _ => rfl) (fun _ => rfl) (fun _ => rfl)
          (stepsTo_true_interruptHandler env) fuel s4
      have h34 : countLoc (imagePath img) s3.trace ≤ countLoc (imagePath img) s4.trace :=
        countLoc_le_of_stepsTo _ hic
      have h45 : countLoc (imagePath img) s4.trace ≤ countLoc (imagePath img)
          ((waitLoopF env (interruptHandler env) img r tms start fuel s4).2.trace) :=
        countLoc_le_of_stepsTo _ hloop
      omega
  | error =>
    simp only [doLocate, hE]
    set s2 : S := { sx with
                      locN := sx.locN + 1,
                      trace := (.locate (imagePath img) r .error) :: sx.trace }
      with hs2
    have hcount : countLoc (imagePath img) s2.trace
        = countLoc (imagePath img) sx.trace + 1 := by
      rw [hs2]
      exact countLoc_cons_self _ r _ _
    have hrest : StepsTo (fun _ => true) s2
        (retriesGo env (imagePath img) r 2 1 s2).2 :=
      stepsTo_retriesGo env _ r (fun _ => rfl) (fun _ => rfl) 2 1 s2
    rcases hgo : retriesGo env (imagePath img) r 2 1 s2 with ⟨res, s3⟩
    rw [hgo] at hrest
    have h23 : countLoc (imagePath img) s2.trace ≤ countLoc (imagePath img) s3.trace :=
      countLoc_le_of_stepsTo _ hrest
    cases res with
    | some loc =>
      simp only
      omega
    | none =>
      simp only
      have hic : StepsTo (fun _ => true) s3
          (sleep checkIntervalMs (interruptCheck env (interruptHandler env) img s3)) :=
        stepsTo_trans
          (stepsTo_interruptCheck env (interruptHandler env) img s3
            (fun _ => rfl) (stepsTo_true_interruptHandler env))
          (stepsTo_sleep _ _ rfl)
      set s4 := sleep checkIntervalMs (interruptCheck env (interruptHandler env) img s3)
      have hloop : StepsTo (fun _ => true) s4
          (waitLoopF env (interruptHandler env) img r tms start fuel s4).2 :=
        stepsTo_waitLoopF env (interruptHandler env) img r tms start
          (fun _ => rfl) (fun _ => rfl) (fun _ => rfl)
          (stepsTo_true_interruptHandler env) fuel s4
      have h34 : countLoc (imagePath img) s3.trace ≤ countLoc (imagePath img) s4.trace :=
        countLoc_le_of_stepsTo _ hic
      have h45 : countLoc (imagePath img) s4.trace ≤ countLoc (imagePath img)
          ((waitLoopF env (interruptHandler env) img r tms start fuel s4).2.trace) :=
        countLoc_le_of_stepsTo _ hloop
      omega

/-- Claim C3: in every poll cycle of `wait_and_find_image` for a template
other than the interrupt template `7.png`, after the primary retries have
failed exactly one single-shot full-screen match of `7.png` is performed;
if it succeeds the interrupt dismissal (`click_image_with_offset("7.png")`)
runs immediately, before the cycle's closing `check_interval` sleep and
hence before the loop's next poll; the interrupt check never consumes or
alters the primary search's result (the cycle's returned value equals the
primary retries' value, and the retries themselves never probe `7.png`);
and if the deadline has not elapsed, the continuing loop performs a
further screen match of the primary template. -/
theorem interrupt_scan_per_cycle (env : Env) (img : String) (r : Option Region)
    (s s1 : S)
    (him : img ≠ "7.png")
    (hpr : primaryRetries env (imagePath img) r s = (none, s1)) :
    (∀ (h : S → S) (sx : S),
      (waitBody env h img r sx).1 = (primaryRetries env (imagePath img) r sx).1) ∧
    (waitBody env (interruptHandler env) img r s
      = (none, sleep checkIntervalMs
          (interruptCheck env (interruptHandler env) img s1))) ∧
    (∃ out s2,
      doLocate env (imagePath "7.png") none s1 = (out, s2) ∧
      s2.trace = .locate (imagePath "7.png") none out :: s1.trace ∧
      countLoc (imagePath "7.png") s2.trace
        = countLoc (imagePath "7.png") s1.trace + 1 ∧
      interruptCheck env (interruptHandler env) img s1
        = (if out.isFound then interruptHandler env s2 else s2)) ∧
    (countLoc (imagePath "7.png") s1.trace = countLoc (imagePath "7.png") s.trace) ∧
    (∀ (tms start fuel : Nat) (sx : S), sx.time - start < tms →
      countLoc (imagePath img)
          ((waitLoopF env (interruptHandler env) img r tms start (fuel + 1) sx).2.trace)
        > countLoc (imagePath img) sx.trace) := by
  refine ⟨?_, ?_, ?_, ?_, ?_⟩
  · intro h sx
    rw [waitBody]
    rcases hres : primaryRetries env (imagePath img) r sx with ⟨res, sA⟩
    cases res <;> simp
  · rw [waitBody]
    simp [hpr]
  · refine ⟨env.locate (imagePath "7.png") none s1.locN,
      { s1 with
          locN := s1.locN + 1,
          trace := (.locate (imagePath "7.png") none
            (env.locate (imagePath "7.png") none s1.locN)) :: s1.trace },
      rfl, rfl, countLoc_cons_self _ none _ _, ?_⟩
    rw [interruptCheck]
    simp only [him, if_false]
    cases hE : env.locate (imagePath "7.png") none s1.locN with
    | found a b => simp [doLocate, hE, LocOutcome.isFound]
    | notFound => simp [doLocate, hE, LocOutcome.isFound]
    | error => simp [doLocate, hE, LocOutcome.isFound]
  · have hst : StepsTo (primaryEvOf (imagePath img)) s
        (primaryRetries env (imagePath img) r s).2 :=
      stepsTo_retriesGo env (imagePath img) r
        (fun _ => by simp [primaryEvOf]) (fun _ => rfl) retryCount 0 s
    rw [hpr] at hst
    obtain ⟨ext, he, hall⟩ := hst
    rw [he, countLoc_append,
      countLoc_zero_of_primaryEv (imagePath img) (imagePath "7.png")
        (imagePath_ne him) ext hall]
    omega
  · intro tms start fuel sx hc
    exact waitLoopF_polls_again env img r tms start fuel sx hc

/-- Witness for C3: the never-matching environment, template 1, and the
state its first failed primary-retry phase actually produces. -/
theorem interrupt_scan_per_cycle_witness :
    ("1.png" ≠ "7.png") ∧
    (primaryRetries cEnvNone (imagePath "1.png") none sInit = (none, pSt1)) ∧
    ((∀ (h : S → S) (sx : S),
      (waitBody cEnvNone h "1.png" none sx).1
        = (primaryRetries cEnvNone (imagePath "1.png") none sx).1) ∧
    (waitBody cEnvNone (interruptHandler cEnvNone) "1.png" none sInit
      = (none, sleep checkIntervalMs
          (interruptCheck cEnvNone (interruptHandler cEnvNone) "1.png" pSt1))) ∧
    (∃ out s2,
      doLocate cEnvNone (imagePath "7.png") none pSt1 = (out, s2) ∧
      s2.trace = .locate (imagePath "7.png") none out :: pSt1.trace ∧
      countLoc (imagePath "7.png") s2.trace
        = countLoc (imagePath "7.png") pSt1.trace + 1 ∧
      interruptCheck cEnvNone (interruptHandler cEnvNone) "1.png" pSt1
        = (if out.isFound then interruptHandler cEnvNone s2 else s2)) ∧
    (countLoc (imagePath "7.png") pSt1.trace
      = countLoc (imagePath "7.png") sInit.trace) ∧
    (∀ (tms start fuel : Nat) (sx : S), sx.time - start < tms →
      countLoc (imagePath "1.png")
          ((waitLoopF cEnvNone (interruptHandler cEnvNone) "1.png" none
            tms start (fuel + 1) sx).2.trace)
        > countLoc (imagePath "1.png") sx.trace)) :=
  ⟨by decide, by decide,
    interrupt_scan_per_cycle cEnvNone "1.png" none sInit pSt1
      (by decide) (by decide)⟩

/-- Witness for C6 at a concrete environment and the initial state. -/
theorem generate_random_email_spec_witness :
    ∃ lp : String,
      (generate_random_email cEnvFind sInit).1 = lp ++ "@163.com" ∧
      lp.length = 6 ∧
      (∀ c ∈ lp.data, (c.isAlpha || c.isDigit) = true) ∧
      (generate_random_email cEnvFind sInit).2.time = sInit.time ∧
      (generate_random_email cEnvFind sInit).2.locN = sInit.locN ∧
      (generate_random_email cEnvFind sInit).2.clkN = sInit.clkN ∧
      (generate_random_email cEnvFind sInit).2.osN = sInit.osN ∧
      (generate_random_email cEnvFind sInit).2.clipboard = sInit.clipboard ∧
      (generate_random_email cEnvFind sInit).2.rndN = sInit.rndN + 6 :=
  generate_random_email_spec cEnvFind sInit

end Anyi
